import Mathlib

/-!
# Verification of the pycg blender_server command bridge

Shallow embedding of `src/pycg/blender_server/main.py`: the command
dispatcher (`handle_cmds`, lines 55-257), the cooperative modal driver
(`ClientOperator._modal`, lines 311-343) and the dedicated background loop
(`__main__`, lines 513-532), together with proofs of the frozen claims
about them.

Modelling decisions:
* Python dict values are embedded as `Val`; numeric scalars are carried as
  `ℚ` (the reachable code paths only move scalars between the message and
  the scene, never doing float arithmetic on them, so exact rationals are a
  faithful carrier).
* Python exceptions are embedded as `PyErr`.  Every dispatcher step returns
  the (possibly partially mutated) scene together with either a response
  mapping or the raised exception, mirroring Python's in-place mutation
  semantics where an exception does not roll back earlier assignments.
* Calls into code that is not part of this repository (the `bpy` scene API
  and `assets.py`) are embedded as explicit state on `Scene`.  Blender's
  typed-property contracts (vector lengths, enum membership) are embedded
  where the source relies on them; `AssetManager` operations are modelled
  from the spec, as marked on each definition.
-/

/-- A Python value as it appears in command/response mappings.
`nd` is a numpy ndarray (shape plus row-major flat data); `none` is
Python's `None`. -/
inductive Val where
  | num (q : ℚ)
  | str (s : String)
  | arr (l : List Val)
  | nd (shape : List Nat) (flat : List ℚ)
  | none

/-- The Python exceptions the source can raise while handling a command. -/
inductive PyErr where
  | keyError (k : String)
  | indexError
  | typeError
  | attributeError
  | assertionError
  | runtimeError
  | connectionRefused
  | notImplemented

/-- A command or response mapping: keys to values (Python dict). -/
def Msg : Type := List (String × Val)

def Resp : Type := List (String × Val)

/-- Python dict membership / lookup (`k in m`, `m[k]`), by key. -/
def lookupKey (k : String) : List (String × Val) → Option Val
  | [] => Option.none
  | (k2, v) :: r => if k2 = k then some v else lookupKey k r

/-- `msg[k]`: a missing key raises `KeyError`. -/
def getKey (m : Msg) (k : String) : Except PyErr Val :=
  match lookupKey k m with
  | some v => Except.ok v
  | Option.none => Except.error (PyErr.keyError k)

/-- `res.update({k: v})`: overwrite the key if present, else add it. -/
def setKey (k : String) (v : Val) : Resp → Resp
  | [] => [(k, v)]
  | (k2, w) :: r => if k2 = k then (k, v) :: r else (k2, w) :: setKey k v r

/-- `v[i]` (`__getitem__` with an index): lists index positionally
(IndexError when out of range); scalars are not subscriptable. -/
def Val.item : Val → Nat → Except PyErr Val
  | .arr l, i =>
    match l.get? i with
    | some v => Except.ok v
    | Option.none => Except.error PyErr.indexError
  | _, _ => Except.error PyErr.typeError

/-- ASCII lowercase of one character (the names compared through
`.lower()` in the source are all ASCII). -/
def lowerChar (c : Char) : Char :=
  if 65 ≤ c.toNat ∧ c.toNat ≤ 90 then Char.ofNat (c.toNat + 32) else c

/-- Python `str.lower()` on the ASCII names the source compares. -/
def pyLower (s : String) : String := String.mk (s.data.map lowerChar)

/-- `v.lower()`: only strings have the attribute. -/
def Val.lower : Val → Except PyErr String
  | .str s => Except.ok (pyLower s)
  | _ => Except.error PyErr.attributeError

/-- Extract a numeric scalar (assignment to a Blender float property:
anything else raises TypeError). -/
def Val.asNum : Val → Except PyErr ℚ
  | .num q => Except.ok q
  | _ => Except.error PyErr.typeError

/-- Convert the elements of a Python list to numeric scalars. -/
def numList : List Val → Except PyErr (List ℚ)
  | [] => Except.ok []
  | v :: r =>
    match v with
    | Val.num q =>
      match numList r with
      | Except.ok l => Except.ok (q :: l)
      | Except.error e => Except.error e
    | _ => Except.error PyErr.typeError

/-- `np.asarray(v)` followed by 1-d slicing/element access: a list of
numbers gives a vector, a 1-d ndarray is itself, a scalar gives a 0-d
array whose slicing raises IndexError. -/
def Val.asVec : Val → Except PyErr (List ℚ)
  | .arr l => numList l
  | .nd [_] flat => Except.ok flat
  | .num _ => Except.error PyErr.indexError
  | _ => Except.error PyErr.typeError

/-- Assignment of a sequence to a fixed-length Blender vector property:
the length must match exactly, otherwise TypeError. -/
def fitVec (n : Nat) (l : List ℚ) : Except PyErr (List ℚ) :=
  if l.length = n then Except.ok l else Except.error PyErr.typeError

/-- Indexing into a 1-d numeric vector (`cam_intr[i]`). -/
def vecIdx (l : List ℚ) (i : Nat) : Except PyErr ℚ :=
  match l.get? i with
  | some q => Except.ok q
  | Option.none => Except.error PyErr.indexError

/-- Python `int()` applied to a number truncates toward zero. -/
def pyInt (q : ℚ) : Int := Int.tdiv q.num q.den

/-- Rough printable form of a value, used only for `f"Light-{light_id}"`. -/
def pyDisp : Val → String
  | Val.str s => s
  | Val.num q => toString q
  | _ => "obj"

/-- One keyframe point of an f-curve (Blender `FCurveKeyframePoints`
entry).  `handle_left`/`handle_right` are `Option.none` while Blender's
automatic handle placement is in effect, i.e. before the source assigns
them explicitly. -/
structure KeyframePoint where
  frame : ℚ
  value : ℚ
  interpolation : String
  handle_left : Option (ℚ × ℚ)
  handle_right : Option (ℚ × ℚ)
  handle_left_type : String
  handle_right_type : String

/-- One f-curve of an action (`data_path`, array index, keyframes). -/
structure FCurve where
  data_path : String
  index : ℚ
  auto_smoothing : String
  keyframe_points : List KeyframePoint

/-- A Blender action: a named container of f-curves. -/
structure PAction where
  name : String
  fcurves : List FCurve

/-- A Blender object as far as the dispatcher touches it: transform
fields, animation data, and the keyframes inserted through
`keyframe_insert` (recorded as (data_path, frame) pairs). -/
structure Obj where
  name : String
  rotation_mode : String
  rotation_quaternion : List ℚ
  rotation_axis_angle : List ℚ
  rotation_euler : List ℚ
  location : List ℚ
  has_anim_data : Bool
  action : Option PAction
  geometry_type : Option String
  keyed : List (String × ℚ)

/-- A fresh Blender object with default transform (what
`bpy.data.objects.new` yields). -/
def newObj (n : String) : Obj :=
  { name := n
    rotation_mode := "XYZ"
    rotation_quaternion := [1, 0, 0, 0]
    rotation_axis_angle := [0, 0, 1, 0]
    rotation_euler := [0, 0, 0]
    location := [0, 0, 0]
    has_anim_data := false
    action := Option.none
    geometry_type := Option.none
    keyed := [] }

/-- Camera data block (`camera.data`). -/
structure CamData where
  shift_x : ℚ
  shift_y : ℚ
  angle : ℚ
  clip_start : ℚ
  clip_end : ℚ

/-- A light data block as created by the `light` command. -/
structure LightData where
  name : String
  light_type : String
  energy : ℚ
  sun_angle : Option ℚ
  shadow_soft_size : Option ℚ
  size : Option ℚ

/-- A light object (data block plus its object transform). -/
structure LightObj where
  data : LightData
  location : List ℚ
  rotation_mode : String
  rotation_quaternion : List ℚ

/-- The world-background environment texture as uploaded by `envmap`:
image dimensions, the raveled pixel buffer, and the mapping-node Z
rotation. -/
structure EnvTex where
  width : Nat
  height : Nat
  pixels : List ℚ
  rotation : List ℚ

/-- The scene-side state the dispatcher reads and mutates.  `assets` is
`AssetManager.data` (modelled from the spec: `assets.py` is not under
src/); `renders` and `evaled` record the calls into the external
render / save / exec facilities; `next_uuid` drives fresh identifier
generation (`uuid.uuid1()` and `AssetManager` uuids). -/
structure Scene where
  camera : Obj
  camera_data : CamData
  camera_base : Obj
  assets : List (String × Obj)
  lights : List LightObj
  world_env : Option EnvTex
  resolution_x : Int
  resolution_y : Int
  cycles_samples : ℚ
  render_filepath : String
  renders : List String
  evaled : List String
  next_uuid : Nat

/-- Reference to the object a command addresses: the scene camera, the
`camera_base` empty, or an `AssetManager` entity by uuid. -/
inductive ObjRef where
  | cam
  | base
  | asset (n : String)

/-- Association-list lookup for `AssetManager.data`. -/
def lookupA (n : String) : List (String × Obj) → Option Obj
  | [] => Option.none
  | (k, o) :: r => if k = n then some o else lookupA n r

/-- Update the entry for `n` in `AssetManager.data` in place. -/
def updateA (n : String) (f : Obj → Obj) : List (String × Obj) → List (String × Obj)
  | [] => []
  | (k, o) :: r => if k = n then (k, f o) :: r else (k, o) :: updateA n f r

def Scene.getObj (s : Scene) : ObjRef → Obj
  | ObjRef.cam => s.camera
  | ObjRef.base => s.camera_base
  | ObjRef.asset n => (lookupA n s.assets).getD (newObj n)

def Scene.updObj (s : Scene) (r : ObjRef) (f : Obj → Obj) : Scene :=
  match r with
  | ObjRef.cam => { s with camera := f s.camera }
  | ObjRef.base => { s with camera_base := f s.camera_base }
  | ObjRef.asset n => { s with assets := updateA n f s.assets }

/-- main.py 35-42, `get_object`: the two sentinel names resolve to fixed
host objects; any other name indexes `AssetManager.data` (a dict, so a
missing key raises KeyError).  `.lower()` on a non-string raises
AttributeError. -/
def get_object (s : Scene) (v : Val) : Except PyErr ObjRef :=
  match v with
  | Val.str n =>
    if pyLower n = "relative_camera" then Except.ok ObjRef.cam
    else if pyLower n = "camera_base" then Except.ok ObjRef.base
    else
      match lookupA n s.assets with
      | some _ => Except.ok (ObjRef.asset n)
      | Option.none => Except.error (PyErr.keyError n)
  | _ => Except.error PyErr.attributeError

/-- main.py 45-52, `rebuild_world_surface`: removes the EnvTex image and
clears the world node tree, leaving no environment texture. -/
def rebuild_world_surface (s : Scene) : Scene :=
  { s with world_env := Option.none }

/-- The fixed response mappings. -/
def successResp : Resp := [("result", Val.str "success")]

def addedResp : Resp := [("result", Val.str "added")]

def failedResp : Resp := [("result", Val.str "failed")]

/-- The elements of a Python sequence (for list slicing `pose[3:]` /
iteration).  Scalars are not subscriptable/iterable. -/
def Val.elems : Val → Except PyErr (List Val)
  | .arr l => Except.ok l
  | .nd [_] flat => Except.ok (flat.map Val.num)
  | _ => Except.error PyErr.typeError

/-- In-place update of the last element of a list (the entity the source
just appended and keeps mutating through a Python reference). -/
def modifyLast {α : Type} (f : α → α) (l : List α) : List α :=
  l.dropLast ++ (l.getLast?.map f).toList

/-- Apply `f` to an object's action (present whenever the source reaches
the call). -/
def updActionF (f : PAction → PAction) (o : Obj) : Obj :=
  match o.action with
  | some a => { o with action := some (f a) }
  | Option.none => o

/-- Append a keyframe point to the f-curve the source just created (the
last f-curve of the object's action).  Blender's
`keyframe_points.insert` keeps points sorted by frame; the claims under
verification never depend on that order, so insertion is embedded as an
append. -/
def Scene.appendKF (s : Scene) (r : ObjRef) (kf : KeyframePoint) : Scene :=
  s.updObj r (updActionF (fun a =>
    { a with fcurves := (modifyLast
        (fun fc => { fc with keyframe_points := fc.keyframe_points ++ [kf] }) a.fcurves) }))

/-- Mutate the keyframe point the source last inserted. -/
def Scene.updLastKF (s : Scene) (r : ObjRef) (g : KeyframePoint → KeyframePoint) : Scene :=
  s.updObj r (updActionF (fun a =>
    { a with fcurves := (modifyLast
        (fun fc => { fc with keyframe_points := modifyLast g fc.keyframe_points }) a.fcurves) }))

/-- Modelled from the spec: `AssetManager.create_entity` lives in
`assets.py`, which is not under src/.  Per the spec (§6, entity row) it
creates a geometry object from `geometry_type` and the geometry payload
and registers it under a fresh opaque uuid, which the caller reads back
as `geom_obj.pycg_asset.uuid`. -/
def create_entity (gv : Val) (s : Scene) : Scene × Except PyErr String :=
  match gv with
  | Val.str g =>
    let uid := "uuid-" ++ toString s.next_uuid
    ({ s with
        next_uuid := s.next_uuid + 1
        assets := s.assets ++ [(uid, { newObj uid with geometry_type := some g })] },
      Except.ok uid)
  | _ => (s, Except.error PyErr.typeError)

/-- main.py 72-81: the `entity` command.  Reads `geometry_type` (the
f-string on line 73), creates the entity, then sets quaternion (from
`pose[3:]`, line 76) and location (from `pose[:3]`, line 77). -/
def cmdEntity (m : Msg) (s : Scene) : Scene × Except PyErr Resp :=
  match getKey m "geometry_type" with
  | Except.error e => (s, Except.error e)
  | Except.ok gv =>
  match create_entity gv s with
  | (s1, Except.error e) => (s1, Except.error e)
  | (s1, Except.ok uid) =>
  let s2 := s1.updObj (ObjRef.asset uid) (fun o => { o with rotation_mode := "QUATERNION" })
  match getKey m "pose" with
  | Except.error e => (s2, Except.error e)
  | Except.ok pv =>
  match pv.elems with
  | Except.error e => (s2, Except.error e)
  | Except.ok pl =>
  match numList (pl.drop 3) with
  | Except.error e => (s2, Except.error e)
  | Except.ok qtail =>
  match fitVec 4 qtail with
  | Except.error e => (s2, Except.error e)
  | Except.ok q4 =>
  let s3 := s2.updObj (ObjRef.asset uid) (fun o => { o with rotation_quaternion := q4 })
  match numList (pl.take 3) with
  | Except.error e => (s3, Except.error e)
  | Except.ok lhead =>
  match fitVec 3 lhead with
  | Except.error e => (s3, Except.error e)
  | Except.ok l3 =>
  let s4 := s3.updObj (ObjRef.asset uid) (fun o => { o with location := l3 })
  (s4, Except.ok [("result", Val.str "created"), ("uuid", Val.str uid)])

/-- main.py 83-97: the `clear` command.  `AssetManager.clear_all` is
modelled from the spec (remove all managed entities); lights, the two
host objects' animation data, and the world background are reset. -/
def cmdClear (s : Scene) : Scene × Except PyErr Resp :=
  let s1 := { s with assets := [] }
  let s2 := { s1 with lights := [] }
  let s3 := s2.updObj ObjRef.cam
    (fun o => { o with has_anim_data := false, action := Option.none, keyed := [] })
  let s4 := s3.updObj ObjRef.base
    (fun o => { o with has_anim_data := false, action := Option.none, keyed := [] })
  let s5 := rebuild_world_surface s4
  (s5, Except.ok successResp)

/-- main.py 106-114: the intrinsic half of the `camera` command. -/
def camIntr (m : Msg) (s : Scene) : Scene × Except PyErr Resp :=
  match lookupKey "intrinsic" m with
  | Option.none => (s, Except.ok successResp)
  | some iv =>
    match iv.asVec with
    | Except.error e => (s, Except.error e)
    | Except.ok intr =>
    match vecIdx intr 0 with
    | Except.error e => (s, Except.error e)
    | Except.ok i0 =>
    let s1 := { s with resolution_x := pyInt i0 }
    match vecIdx intr 1 with
    | Except.error e => (s1, Except.error e)
    | Except.ok i1 =>
    let s2 := { s1 with resolution_y := pyInt i1 }
    match vecIdx intr 2 with
    | Except.error e => (s2, Except.error e)
    | Except.ok i2 =>
    let s3 := { s2 with camera_data := { s2.camera_data with shift_x := i2 } }
    match vecIdx intr 3 with
    | Except.error e => (s3, Except.error e)
    | Except.ok i3 =>
    let s4 := { s3 with camera_data := { s3.camera_data with shift_y := i3 } }
    match vecIdx intr 4 with
    | Except.error e => (s4, Except.error e)
    | Except.ok i4 =>
    let s5 := { s4 with camera_data := { s4.camera_data with angle := i4 } }
    let s6 := { s5 with camera_data := { s5.camera_data with clip_start := 1/10 } }
    let s7 := { s6 with camera_data := { s6.camera_data with clip_end := 1000 } }
    (s7, Except.ok successResp)

/-- main.py 99-116: the `camera` command.  Note line 102 reads
`msg['pose'][0]` — the pose payload's FIRST ELEMENT is the 7-vector. -/
def cmdCamera (m : Msg) (s : Scene) : Scene × Except PyErr Resp :=
  match lookupKey "pose" m with
  | some pv =>
    match pv.item 0 with
    | Except.error e => (s, Except.error e)
    | Except.ok row =>
    match row.asVec with
    | Except.error e => (s, Except.error e)
    | Except.ok ext =>
    match fitVec 3 (ext.take 3) with
    | Except.error e => (s, Except.error e)
    | Except.ok l3 =>
    let s1 := s.updObj ObjRef.cam (fun o => { o with location := l3 })
    let s2 := s1.updObj ObjRef.cam (fun o => { o with rotation_mode := "QUATERNION" })
    match fitVec 4 ((ext.drop 3).take 4) with
    | Except.error e => (s2, Except.error e)
    | Except.ok q4 =>
    let s3 := s2.updObj ObjRef.cam (fun o => { o with rotation_quaternion := q4 })
    camIntr m s3
  | Option.none => camIntr m s

/-- Modelled from the spec: `AssetManager.get_entity` (in `assets.py`,
not under src/) returns an entity-specific payload mapping for an
existing uuid; a missing uuid is a dict-lookup KeyError. -/
def geomVal (o : Obj) : Val :=
  match o.geometry_type with
  | some g => Val.str g
  | Option.none => Val.none

def get_entity (v : Val) (s : Scene) : Except PyErr Resp :=
  match v with
  | Val.str u =>
    match lookupA u s.assets with
    | some o => Except.ok [("uuid", Val.str u), ("geometry_type", geomVal o)]
    | Option.none => Except.error (PyErr.keyError u)
  | _ => Except.error (PyErr.keyError "uuid")

/-- main.py 118-122: the `get_entity` command. -/
def cmdGetEntity (m : Msg) (s : Scene) : Scene × Except PyErr Resp :=
  match getKey m "uuid" with
  | Except.error e => (s, Except.error e)
  | Except.ok uv =>
  match get_entity uv s with
  | Except.error e => (s, Except.error e)
  | Except.ok res => (s, Except.ok (setKey "result" (Val.str "got") res))

/-- The full value set of Blender's light `type` enum, validated by
`bpy.data.lights.new`. -/
def lightTypes : List String := ["POINT", "SUN", "SPOT", "AREA"]

/-- main.py 130-135: the type-specific size parameter of a new light. -/
def lightExtra (m : Msg) (ty : String) :
    Except PyErr (Option ℚ × Option ℚ × Option ℚ) :=
  if ty = "SUN" then
    match getKey m "angle" with
    | Except.error e => Except.error e
    | Except.ok v =>
      match v.asNum with
      | Except.error e => Except.error e
      | Except.ok q => Except.ok (some q, Option.none, Option.none)
  else if ty = "POINT" ∨ ty = "SPOT" then
    match getKey m "radius" with
    | Except.error e => Except.error e
    | Except.ok v =>
      match v.asNum with
      | Except.error e => Except.error e
      | Except.ok q => Except.ok (Option.none, some q, Option.none)
  else if ty = "AREA" then
    match getKey m "size" with
    | Except.error e => Except.error e
    | Except.ok v =>
      match v.asNum with
      | Except.error e => Except.error e
      | Except.ok q => Except.ok (Option.none, Option.none, some q)
  else Except.ok (Option.none, Option.none, Option.none)

/-- main.py 124-145: the `light` command. -/
def cmdLight (m : Msg) (s : Scene) : Scene × Except PyErr Resp :=
  let p := match lookupKey "uuid" m with
           | some v => (v, s)
           | Option.none =>
             (Val.str ("uuid-" ++ toString s.next_uuid),
              { s with next_uuid := s.next_uuid + 1 })
  let lid := p.1
  let s0 := p.2
  let lname := "Light-" ++ pyDisp lid
  match getKey m "type" with
  | Except.error e => (s0, Except.error e)
  | Except.ok tv =>
  match tv with
  | Val.str ty =>
    if ty ∈ lightTypes then
      match getKey m "energy" with
      | Except.error e => (s0, Except.error e)
      | Except.ok ev =>
      match ev.asNum with
      | Except.error e => (s0, Except.error e)
      | Except.ok en =>
      match lightExtra m ty with
      | Except.error e => (s0, Except.error e)
      | Except.ok extra =>
      let ld : LightData :=
        { name := lname, light_type := ty, energy := en,
          sun_angle := extra.1, shadow_soft_size := extra.2.1, size := extra.2.2 }
      let s1 := { s0 with lights := s0.lights ++
        [{ data := ld, location := [0, 0, 0], rotation_mode := "XYZ",
           rotation_quaternion := [1, 0, 0, 0] }] }
      match getKey m "pos" with
      | Except.error e => (s1, Except.error e)
      | Except.ok posv =>
      match posv.asVec with
      | Except.error e => (s1, Except.error e)
      | Except.ok pl =>
      match fitVec 3 pl with
      | Except.error e => (s1, Except.error e)
      | Except.ok p3 =>
      let s2 := { s1 with lights := modifyLast (fun lo => { lo with location := p3 }) s1.lights }
      let s3 := { s2 with lights := modifyLast (fun lo => { lo with rotation_mode := "QUATERNION" }) s2.lights }
      match getKey m "rot" with
      | Except.error e => (s3, Except.error e)
      | Except.ok rv =>
      match rv.asVec with
      | Except.error e => (s3, Except.error e)
      | Except.ok rl =>
      match fitVec 4 rl with
      | Except.error e => (s3, Except.error e)
      | Except.ok r4 =>
      let s4 := { s3 with lights := modifyLast (fun lo => { lo with rotation_quaternion := r4 }) s3.lights }
      (s4, Except.ok [("result", Val.str "created"), ("uuid", lid)])
    else (s0, Except.error PyErr.typeError)
  | _ => (s0, Except.error PyErr.typeError)

/-- Valid values of Blender's object `rotation_mode` enum property
(assignment of anything else raises TypeError). -/
def rotationModes : List String :=
  ["QUATERNION", "XYZ", "XZY", "YXZ", "YZX", "ZXY", "ZYX", "AXIS_ANGLE"]

/-- main.py 152-156: elementwise rotation component assignment
`target_object.rotation_*[q] = msg['rotation_value'][q]`.  The message
lookup sits inside the loop body, so each iteration re-reads it and a
missing key surfaces on the first iteration. -/
def setCompLoop (m : Msg) (r : ObjRef) (fu : Nat → ℚ → Obj → Obj) :
    List Nat → Scene → Scene × Except PyErr Unit
  | [], s => (s, Except.ok ())
  | q :: qs, s =>
    match getKey m "rotation_value" with
    | Except.error e => (s, Except.error e)
    | Except.ok rv =>
    match rv.item q with
    | Except.error e => (s, Except.error e)
    | Except.ok v =>
    match v.asNum with
    | Except.error e => (s, Except.error e)
    | Except.ok x => setCompLoop m r fu qs (s.updObj r (fu q x))

/-- main.py 160-163: the location half of `entity_pose` plus the success
response.  `msg['location_value']` is a required key; a non-None value
is read as a 3-tuple `(loc[0], loc[1], loc[2])`. -/
def entityPoseLoc (m : Msg) (r : ObjRef) (s : Scene) : Scene × Except PyErr Resp :=
  match getKey m "location_value" with
  | Except.error e => (s, Except.error e)
  | Except.ok lv =>
  match lv with
  | Val.none => (s, Except.ok successResp)
  | _ =>
    match lv.item 0 with
    | Except.error e => (s, Except.error e)
    | Except.ok v0 =>
    match lv.item 1 with
    | Except.error e => (s, Except.error e)
    | Except.ok v1 =>
    match lv.item 2 with
    | Except.error e => (s, Except.error e)
    | Except.ok v2 =>
    match v0.asNum with
    | Except.error e => (s, Except.error e)
    | Except.ok x0 =>
    match v1.asNum with
    | Except.error e => (s, Except.error e)
    | Except.ok x1 =>
    match v2.asNum with
    | Except.error e => (s, Except.error e)
    | Except.ok x2 =>
    let s1 := s.updObj r (fun o => { o with location := [x0, x1, x2] })
    (s1, Except.ok successResp)

/-- main.py 147-163: the `entity_pose` command.  Line 150 assigns
`msg['rotation_mode']` to Blender's `rotation_mode` enum property, which
rejects values outside its enum with TypeError; line 159's fallback
branch evaluates `msg['rotation_value'][0]` (right-hand side first) and
then accesses the nonexistent attribute `rotation` on the object,
raising AttributeError. -/
def cmdEntityPose (m : Msg) (s : Scene) : Scene × Except PyErr Resp :=
  match getKey m "uuid" with
  | Except.error e => (s, Except.error e)
  | Except.ok uv =>
  match get_object s uv with
  | Except.error e => (s, Except.error e)
  | Except.ok r =>
  match getKey m "rotation_mode" with
  | Except.error e => (s, Except.error e)
  | Except.ok rmv =>
  match rmv with
  | Val.none => entityPoseLoc m r s
  | Val.str rm =>
    if rm ∈ rotationModes then
      let s1 := s.updObj r (fun o => { o with rotation_mode := rm })
      if rm = "QUATERNION" then
        match setCompLoop m r
            (fun q x o => { o with rotation_quaternion := o.rotation_quaternion.set q x })
            [0, 1, 2, 3] s1 with
        | (s2, Except.error e) => (s2, Except.error e)
        | (s2, Except.ok _) => entityPoseLoc m r s2
      else if rm = "AXIS_ANGLE" then
        match setCompLoop m r
            (fun q x o => { o with rotation_axis_angle := o.rotation_axis_angle.set q x })
            [0, 1, 2, 3] s1 with
        | (s2, Except.error e) => (s2, Except.error e)
        | (s2, Except.ok _) => entityPoseLoc m r s2
      else
        match getKey m "rotation_value" with
        | Except.error e => (s1, Except.error e)
        | Except.ok rv =>
        match rv.item 0 with
        | Except.error e => (s1, Except.error e)
        | Except.ok _ => (s1, Except.error PyErr.attributeError)
    else (s, Except.error PyErr.typeError)
  | _ => (s, Except.error PyErr.typeError)

/-- main.py 165-175: the `add_keyframe` command.  The camera transform
is set and keyed only when `uuid` is 'camera' and `attribute` is 'pose'
(case-insensitively); the response is 'added' in every case.  Note
`msg['frame']` is read once per `keyframe_insert` call (173 and 174). -/
def cmdAddKeyframe (m : Msg) (s : Scene) : Scene × Except PyErr Resp :=
  match getKey m "uuid" with
  | Except.error e => (s, Except.error e)
  | Except.ok uv =>
  match uv.lower with
  | Except.error e => (s, Except.error e)
  | Except.ok u =>
  if u = "camera" then
    match getKey m "attribute" with
    | Except.error e => (s, Except.error e)
    | Except.ok av =>
    match av.lower with
    | Except.error e => (s, Except.error e)
    | Except.ok a =>
    if a = "pose" then
      match getKey m "value" with
      | Except.error e => (s, Except.error e)
      | Except.ok vv =>
      match vv.asVec with
      | Except.error e => (s, Except.error e)
      | Except.ok ext =>
      match fitVec 3 (ext.take 3) with
      | Except.error e => (s, Except.error e)
      | Except.ok l3 =>
      let s1 := s.updObj ObjRef.cam (fun o => { o with location := l3 })
      let s2 := s1.updObj ObjRef.cam (fun o => { o with rotation_mode := "QUATERNION" })
      match fitVec 4 ((ext.drop 3).take 4) with
      | Except.error e => (s2, Except.error e)
      | Except.ok q4 =>
      let s3 := s2.updObj ObjRef.cam (fun o => { o with rotation_quaternion := q4 })
      match getKey m "frame" with
      | Except.error e => (s3, Except.error e)
      | Except.ok fv =>
      match fv.asNum with
      | Except.error e => (s3, Except.error e)
      | Except.ok f1 =>
      let s4 := s3.updObj ObjRef.cam (fun o => { o with keyed := o.keyed ++ [("location", f1)] })
      match getKey m "frame" with
      | Except.error e => (s4, Except.error e)
      | Except.ok fv2 =>
      match fv2.asNum with
      | Except.error e => (s4, Except.error e)
      | Except.ok f2 =>
      let s5 := s4.updObj ObjRef.cam
        (fun o => { o with keyed := o.keyed ++ [("rotation_quaternion", f2)] })
      (s5, Except.ok addedResp)
    else (s, Except.ok addedResp)
  else (s, Except.ok addedResp)

/-- A 2-element sequence assigned to a keyframe handle. -/
def fit2 (l : List ℚ) : Except PyErr (ℚ × ℚ) :=
  match l with
  | [x, y] => Except.ok (x, y)
  | _ => Except.error PyErr.typeError

/-- main.py 191-205: the per-sample keyframe loop of
`add_animation_fcurve`.  `msg['mode']` is read inside the loop body;
anything other than 'constant'/'linear' takes the bezier branch
(198-204), which inserts at `v[1]` and then assigns the left and right
handles from `v[0]` and `v[2]` with both handle types 'ALIGNED'. -/
def insertLoop (m : Msg) (r : ObjRef) : List Val → Scene → Scene × Except PyErr Resp
  | [], s => (s, Except.ok addedResp)
  | v :: vs, s =>
    match getKey m "mode" with
    | Except.error e => (s, Except.error e)
    | Except.ok mv =>
    match mv with
    | Val.str "constant" =>
      match v.item 0 with
      | Except.error e => (s, Except.error e)
      | Except.ok a0 =>
      match v.item 1 with
      | Except.error e => (s, Except.error e)
      | Except.ok a1 =>
      match a0.asNum with
      | Except.error e => (s, Except.error e)
      | Except.ok f =>
      match a1.asNum with
      | Except.error e => (s, Except.error e)
      | Except.ok w =>
      insertLoop m r vs (s.appendKF r
        { frame := f, value := w, interpolation := "CONSTANT",
          handle_left := Option.none, handle_right := Option.none,
          handle_left_type := "FREE", handle_right_type := "FREE" })
    | Val.str "linear" =>
      match v.item 0 with
      | Except.error e => (s, Except.error e)
      | Except.ok a0 =>
      match v.item 1 with
      | Except.error e => (s, Except.error e)
      | Except.ok a1 =>
      match a0.asNum with
      | Except.error e => (s, Except.error e)
      | Except.ok f =>
      match a1.asNum with
      | Except.error e => (s, Except.error e)
      | Except.ok w =>
      insertLoop m r vs (s.appendKF r
        { frame := f, value := w, interpolation := "LINEAR",
          handle_left := Option.none, handle_right := Option.none,
          handle_left_type := "FREE", handle_right_type := "FREE" })
    | _ =>
      match v.item 1 with
      | Except.error e => (s, Except.error e)
      | Except.ok mid =>
      match mid.item 0 with
      | Except.error e => (s, Except.error e)
      | Except.ok b0 =>
      match mid.item 1 with
      | Except.error e => (s, Except.error e)
      | Except.ok b1 =>
      match b0.asNum with
      | Except.error e => (s, Except.error e)
      | Except.ok f =>
      match b1.asNum with
      | Except.error e => (s, Except.error e)
      | Except.ok w =>
      let s1 := s.appendKF r
        { frame := f, value := w, interpolation := "BEZIER",
          handle_left := Option.none, handle_right := Option.none,
          handle_left_type := "FREE", handle_right_type := "FREE" }
      match v.item 0 with
      | Except.error e => (s1, Except.error e)
      | Except.ok hlv =>
      match hlv.asVec with
      | Except.error e => (s1, Except.error e)
      | Except.ok hl =>
      match fit2 hl with
      | Except.error e => (s1, Except.error e)
      | Except.ok hl2 =>
      let s2 := s1.updLastKF r
        (fun kf => { kf with handle_left := some hl2, handle_left_type := "ALIGNED" })
      match v.item 2 with
      | Except.error e => (s2, Except.error e)
      | Except.ok hrv =>
      match hrv.asVec with
      | Except.error e => (s2, Except.error e)
      | Except.ok hr =>
      match fit2 hr with
      | Except.error e => (s2, Except.error e)
      | Except.ok hr2 =>
      let s3 := s2.updLastKF r
        (fun kf => { kf with handle_right := some hr2, handle_right_type := "ALIGNED" })
      insertLoop m r vs s3

/-- main.py 177-206: the `add_animation_fcurve` command.  Animation data
and an action are created on demand (179-186); `fcurves.new` (188)
requires a string data_path and an integer index and raises RuntimeError
if an f-curve with the same path and index already exists; the new
curve's auto_smoothing is set to 'NONE' (189). -/
def cmdAAF (m : Msg) (s : Scene) : Scene × Except PyErr Resp :=
  match getKey m "uuid" with
  | Except.error e => (s, Except.error e)
  | Except.ok uv =>
  match get_object s uv with
  | Except.error e => (s, Except.error e)
  | Except.ok r =>
  let s1 := if (s.getObj r).has_anim_data then s
            else s.updObj r (fun o => { o with has_anim_data := true })
  let s2 := match (s1.getObj r).action with
            | some _ => s1
            | Option.none => s1.updObj r
                (fun o => { o with action := some { name := o.name ++ "-Action", fcurves := [] } })
  match getKey m "data_path" with
  | Except.error e => (s2, Except.error e)
  | Except.ok dpv =>
  match getKey m "index" with
  | Except.error e => (s2, Except.error e)
  | Except.ok iv =>
  match dpv with
  | Val.str dp =>
    match iv with
    | Val.num qi =>
      if qi.den = 1 then
        match (s2.getObj r).action with
        | Option.none => (s2, Except.error PyErr.runtimeError)
        | some act =>
          if act.fcurves.any (fun fc => fc.data_path == dp && fc.index == qi) then
            (s2, Except.error PyErr.runtimeError)
          else
            let s3 := s2.updObj r (updActionF (fun a =>
              { a with fcurves := a.fcurves ++
                  [{ data_path := dp, index := qi, auto_smoothing := "NONE",
                     keyframe_points := [] }] }))
            match getKey m "values" with
            | Except.error e => (s3, Except.error e)
            | Except.ok vsv =>
            match vsv.elems with
            | Except.error e => (s3, Except.error e)
            | Except.ok vl => insertLoop m r vl s3
      else (s2, Except.error PyErr.typeError)
    | _ => (s2, Except.error PyErr.typeError)
  | _ => (s2, Except.error PyErr.typeError)

/-- `np.concatenate([data, np.ones_like(data[:, :, 1:2])], axis=2)` on a
row-major HxWx3 buffer: append a 1 after every 3 scalars. -/
def alphaPx : List ℚ → List ℚ
  | r :: g :: b :: rest => r :: g :: b :: 1 :: alphaPx rest
  | l => l

/-- The `h` leading rows, each of `k` scalars, of a row-major buffer
(`h` and `k` come from the array's shape). -/
def rowsOf : Nat → Nat → List ℚ → List (List ℚ)
  | 0, _, _ => []
  | h + 1, k, l => l.take k :: rowsOf h k (l.drop k)

/-- main.py 208-235: the `envmap` command.  The world surface is rebuilt
first (209); the data must be an HxWx3 ndarray (assert on 214, a non-
array raises AttributeError at `.ndim`); an alpha channel of ones is
appended pixelwise (215), the rows are reversed (216), and the raveled
buffer becomes the new world image with width `shape[1]` and height
`shape[0]` (217-221); the mapping node rotation is then set from
`msg['rotation']` (226). -/
def cmdEnvmap (m : Msg) (s : Scene) : Scene × Except PyErr Resp :=
  let s1 := rebuild_world_surface s
  match getKey m "data" with
  | Except.error e => (s1, Except.error e)
  | Except.ok dv =>
  match dv with
  | Val.nd shape flat =>
    if shape.length = 3 ∧ shape.get? 2 = some 3 then
      let H := shape.getD 0 0
      let W := shape.getD 1 0
      let withAlpha := alphaPx flat
      let flipped := ((rowsOf H (W * 4) withAlpha).reverse).flatten
      let s2 := { s1 with world_env := (some
        { width := W, height := H, pixels := flipped, rotation := [0, 0, 0] }) }
      match getKey m "rotation" with
      | Except.error e => (s2, Except.error e)
      | Except.ok rv =>
      match rv.asVec with
      | Except.error e => (s2, Except.error e)
      | Except.ok rl =>
      match fitVec 3 rl with
      | Except.error e => (s2, Except.error e)
      | Except.ok r3 =>
      let s3 := { s2 with world_env := (s2.world_env.map (fun t => { t with rotation := r3 })) }
      (s3, Except.ok successResp)
    else (s1, Except.error PyErr.assertionError)
  | _ => (s1, Except.error PyErr.attributeError)

/-- main.py 237-243: the `render` command.  Line 238 assigns
`msg['quality']` directly to `cycles.samples`, an integer RNA property:
Blender rejects non-integer values (floats included) with TypeError, so
only an integral quality is accepted.  The synchronous Cycles render
call itself is external; it is recorded by its output path. -/
def cmdRender (m : Msg) (s : Scene) : Scene × Except PyErr Resp :=
  match getKey m "quality" with
  | Except.error e => (s, Except.error e)
  | Except.ok qv =>
  match qv with
  | Val.num q =>
    if q.den = 1 then
      let s1 := { s with cycles_samples := q }
      match getKey m "path" with
      | Except.error e => (s1, Except.error e)
      | Except.ok pv =>
      match pv with
      | Val.str p =>
        let s2 := { s1 with render_filepath := p }
        let s3 := { s2 with renders := s2.renders ++ [p] }
        (s3, Except.ok [("result", Val.str "rendered")])
      | _ => (s1, Except.error PyErr.typeError)
    else (s, Except.error PyErr.typeError)
  | _ => (s, Except.error PyErr.typeError)

/-- main.py 245-247: the `eval` command.  Modelled from the spec: `exec`
is an opaque, inherently unsandboxed backend-scripted execution;
recorded by the script text. -/
def cmdEval (m : Msg) (s : Scene) : Scene × Except PyErr Resp :=
  match getKey m "script" with
  | Except.error e => (s, Except.error e)
  | Except.ok sv =>
  match sv with
  | Val.str sc => ({ s with evaled := s.evaled ++ [sc] }, Except.ok successResp)
  | _ => (s, Except.error PyErr.typeError)

/-- The execution-context enum that a positional string argument to a
`bpy.ops` operator call is parsed as. -/
def opContexts : List String :=
  ["INVOKE_DEFAULT", "INVOKE_REGION_WIN", "INVOKE_REGION_CHANNELS",
   "INVOKE_REGION_PREVIEW", "INVOKE_AREA", "INVOKE_SCREEN",
   "EXEC_DEFAULT", "EXEC_REGION_WIN", "EXEC_REGION_CHANNELS",
   "EXEC_REGION_PREVIEW", "EXEC_AREA", "EXEC_SCREEN"]

/-- main.py 249-251: the `save` command.  Line 250 calls
`bpy.ops.wm.save_as_mainfile(msg['path'])` with the path POSITIONAL,
but `bpy.ops` operators take the output path only as a `filepath=`
keyword: a positional string is parsed as the execution-context enum,
so any ordinary path raises TypeError (unhandled, fatal).  A path that
happens to spell one of the enum values instead runs the operator with
no filepath at all, which fails against the server's never-saved
startup file (RuntimeError).  The command can never succeed. -/
def cmdSave (m : Msg) (s : Scene) : Scene × Except PyErr Resp :=
  match getKey m "path" with
  | Except.error e => (s, Except.error e)
  | Except.ok pv =>
  match pv with
  | Val.str p =>
    if p ∈ opContexts then (s, Except.error PyErr.runtimeError)
    else (s, Except.error PyErr.typeError)
  | _ => (s, Except.error PyErr.typeError)

/-- The closed command vocabulary the dispatcher recognizes. -/
def cmdSet : List String :=
  ["entity", "clear", "camera", "get_entity", "light", "entity_pose",
   "add_keyframe", "add_animation_fcurve", "envmap", "render", "eval",
   "save", "detach"]

/-- main.py 55-257, `handle_cmds`: dispatch on `msg['cmd']`.  `detach`
raises ConnectionRefusedError (253-254); an unrecognized discriminator
(including a non-string one, for which every equality test is False)
raises NotImplementedError (256-257).  The scene in the result reflects
all mutations performed before a raised exception. -/
def handle_cmds (m : Msg) (s : Scene) : Scene × Except PyErr Resp :=
  match getKey m "cmd" with
  | Except.error e => (s, Except.error e)
  | Except.ok cv =>
    match cv with
    | Val.str c =>
      if c = "entity" then cmdEntity m s
      else if c = "clear" then cmdClear s
      else if c = "camera" then cmdCamera m s
      else if c = "get_entity" then cmdGetEntity m s
      else if c = "light" then cmdLight m s
      else if c = "entity_pose" then cmdEntityPose m s
      else if c = "add_keyframe" then cmdAddKeyframe m s
      else if c = "add_animation_fcurve" then cmdAAF m s
      else if c = "envmap" then cmdEnvmap m s
      else if c = "render" then cmdRender m s
      else if c = "eval" then cmdEval m s
      else if c = "save" then cmdSave m s
      else if c = "detach" then (s, Except.error PyErr.connectionRefused)
      else (s, Except.error PyErr.notImplemented)
    | _ => (s, Except.error PyErr.notImplemented)

/-- State of the cooperative driver: scene, the two shared queues, and
the connection/timer resources held by `ClientOperator`. -/
structure DriverState where
  scene : Scene
  cmd_queue : List Msg
  res_queue : List Resp
  connBound : Bool
  timerActive : Bool

/-- What one `_modal` invocation returns.  Exceptions other than
KeyError and ConnectionRefusedError propagate out of the operator. -/
inductive ModalOut where
  | passThrough
  | cancelled
  | fault (e : PyErr)

/-- The event kinds `_modal` distinguishes (`event.type == 'TIMER'`). -/
inductive Event where
  | timer
  | other

/-- main.py 311-343, `ClientOperator._modal`: one cooperative driver
step.  On a timer event it performs exactly one non-blocking pop; an
empty queue returns PASS_THROUGH immediately (325-326).  KeyError from
`handle_cmds` becomes a failed response (330-331); ConnectionRefused
shuts the connection manager down, removes the timer and cancels the
operator without a response (332-339); otherwise the response is pushed
(340-341). -/
def modalStep (st : DriverState) (ev : Event) : DriverState × ModalOut :=
  match ev with
  | Event.other => (st, ModalOut.passThrough)
  | Event.timer =>
    match st.cmd_queue with
    | [] => (st, ModalOut.passThrough)
    | m :: rest =>
      let st1 := { st with cmd_queue := rest }
      match handle_cmds m st1.scene with
      | (s2, Except.ok resp) =>
        ({ st1 with scene := s2, res_queue := st1.res_queue ++ [resp] }, ModalOut.passThrough)
      | (s2, Except.error (PyErr.keyError _)) =>
        ({ st1 with scene := s2, res_queue := st1.res_queue ++ [failedResp] }, ModalOut.passThrough)
      | (s2, Except.error PyErr.connectionRefused) =>
        ({ st1 with scene := s2, connBound := false, timerActive := false }, ModalOut.cancelled)
      | (s2, Except.error e) =>
        ({ st1 with scene := s2 }, ModalOut.fault e)

/-- How the dedicated background loop ends on a finite command queue:
queue drained (the real loop would keep polling), detached (shutdown and
break), or killed by an unhandled exception. -/
inductive BgExit where
  | drained
  | detached
  | fault (e : PyErr)

/-- main.py 513-532: the dedicated background loop over a finite queue
of commands.  KeyError yields a failed response and the loop continues;
ConnectionRefusedError shuts the connection manager down and breaks
without a response; any other exception propagates and kills the
process. -/
def bgRun (s : Scene) : List Msg → Scene × List Resp × BgExit
  | [] => (s, [], BgExit.drained)
  | m :: ms =>
    match handle_cmds m s with
    | (s1, Except.ok resp) =>
      let r := bgRun s1 ms
      (r.1, resp :: r.2.1, r.2.2)
    | (s1, Except.error (PyErr.keyError _)) =>
      let r := bgRun s1 ms
      (r.1, failedResp :: r.2.1, r.2.2)
    | (s1, Except.error PyErr.connectionRefused) => (s1, [], BgExit.detached)
    | (s1, Except.error e) => (s1, [], BgExit.fault e)

/-- The host scene right after `init_env` (main.py 399-479): empty
scene, camera parented to `camera_base`, no assets or lights, plain
world background. -/
def initScene : Scene :=
  { camera := newObj "Camera"
    camera_data := { shift_x := 0, shift_y := 0, angle := 0, clip_start := 1/10, clip_end := 100 }
    camera_base := newObj "camera_base"
    assets := []
    lights := []
    world_env := Option.none
    resolution_x := 1920
    resolution_y := 1080
    cycles_samples := 128
    render_filepath := ""
    renders := []
    evaled := []
    next_uuid := 0 }

/-! ## Dispatch lemmas: `handle_cmds` routed by the discriminator -/

lemma dispatch_entity (m : Msg) (s : Scene) (h : lookupKey "cmd" m = some (Val.str "entity")) :
    handle_cmds m s = cmdEntity m s := by simp [handle_cmds, getKey, h]

lemma dispatch_clear (m : Msg) (s : Scene) (h : lookupKey "cmd" m = some (Val.str "clear")) :
    handle_cmds m s = cmdClear s := by simp [handle_cmds, getKey, h]

lemma dispatch_camera (m : Msg) (s : Scene) (h : lookupKey "cmd" m = some (Val.str "camera")) :
    handle_cmds m s = cmdCamera m s := by simp [handle_cmds, getKey, h]

lemma dispatch_get_entity (m : Msg) (s : Scene) (h : lookupKey "cmd" m = some (Val.str "get_entity")) :
    handle_cmds m s = cmdGetEntity m s := by simp [handle_cmds, getKey, h]

lemma dispatch_light (m : Msg) (s : Scene) (h : lookupKey "cmd" m = some (Val.str "light")) :
    handle_cmds m s = cmdLight m s := by simp [handle_cmds, getKey, h]

lemma dispatch_entity_pose (m : Msg) (s : Scene) (h : lookupKey "cmd" m = some (Val.str "entity_pose")) :
    handle_cmds m s = cmdEntityPose m s := by simp [handle_cmds, getKey, h]

lemma dispatch_add_keyframe (m : Msg) (s : Scene) (h : lookupKey "cmd" m = some (Val.str "add_keyframe")) :
    handle_cmds m s = cmdAddKeyframe m s := by simp [handle_cmds, getKey, h]

lemma dispatch_aaf (m : Msg) (s : Scene) (h : lookupKey "cmd" m = some (Val.str "add_animation_fcurve")) :
    handle_cmds m s = cmdAAF m s := by simp [handle_cmds, getKey, h]

lemma dispatch_envmap (m : Msg) (s : Scene) (h : lookupKey "cmd" m = some (Val.str "envmap")) :
    handle_cmds m s = cmdEnvmap m s := by simp [handle_cmds, getKey, h]

lemma dispatch_render (m : Msg) (s : Scene) (h : lookupKey "cmd" m = some (Val.str "render")) :
    handle_cmds m s = cmdRender m s := by simp [handle_cmds, getKey, h]

lemma dispatch_eval (m : Msg) (s : Scene) (h : lookupKey "cmd" m = some (Val.str "eval")) :
    handle_cmds m s = cmdEval m s := by simp [handle_cmds, getKey, h]

lemma dispatch_save (m : Msg) (s : Scene) (h : lookupKey "cmd" m = some (Val.str "save")) :
    handle_cmds m s = cmdSave m s := by simp [handle_cmds, getKey, h]

lemma dispatch_detach (m : Msg) (s : Scene) (h : lookupKey "cmd" m = some (Val.str "detach")) :
    handle_cmds m s = (s, Except.error PyErr.connectionRefused) := by
  simp [handle_cmds, getKey, h]

/-! ## Fixed example commands and states used by witnesses -/

def clearMsg : Msg := [("cmd", Val.str "clear")]

def detachMsg : Msg := [("cmd", Val.str "detach")]

def bogusMsg : Msg := [("cmd", Val.str "warp")]

def renderNoQualityMsg : Msg := [("cmd", Val.str "render")]

/-- A driver state with nothing pending. -/
def emptyDS : DriverState :=
  { scene := initScene, cmd_queue := [], res_queue := [], connBound := true, timerActive := true }

/-- `initScene` with one registered asset entity `u1`. -/
def sceneWithAsset : Scene := { initScene with assets := [("u1", newObj "u1")] }

/-! ## Claims C9, C3, C4, C2 -/

/-- C9: a cooperative-driver step invoked when `cmd_queue` is empty never
blocks and never invokes the dispatcher: the non-blocking pop raises
Empty and the step returns PASS_THROUGH immediately, leaving the whole
driver state (response queue included) untouched. -/
theorem claim_C9 (st : DriverState) (h : st.cmd_queue = []) :
    modalStep st Event.timer = (st, ModalOut.passThrough) := by
  simp [modalStep, h]

theorem claim_C9_witness :
    modalStep emptyDS Event.timer = (emptyDS, ModalOut.passThrough) :=
  claim_C9 emptyDS rfl

/-- C3: a `detach` command emits no response, raises the stop signal out
of `handle_cmds` without mutating the scene, makes the background loop
exit before any later command, and makes the modal driver shut the
connection manager down, remove its timer, and return CANCELLED with the
response queue untouched. -/
theorem claim_C3 (m : Msg) (s : Scene) (rest : List Msg) (rs : List Resp) (cb ta : Bool)
    (h : lookupKey "cmd" m = some (Val.str "detach")) :
    handle_cmds m s = (s, Except.error PyErr.connectionRefused) ∧
    bgRun s (m :: rest) = (s, [], BgExit.detached) ∧
    modalStep { scene := s, cmd_queue := m :: rest, res_queue := rs, connBound := cb,
                timerActive := ta } Event.timer
      = ({ scene := s, cmd_queue := rest, res_queue := rs, connBound := false,
           timerActive := false }, ModalOut.cancelled) := by
  have hd : handle_cmds m s = (s, Except.error PyErr.connectionRefused) :=
    dispatch_detach m s h
  refine ⟨hd, ?_, ?_⟩
  · simp [bgRun, hd]
  · simp [modalStep, hd]

theorem claim_C3_witness :
    bgRun initScene (detachMsg :: [clearMsg]) = (initScene, [], BgExit.detached) :=
  (claim_C3 detachMsg initScene [clearMsg] [] true true rfl).2.1

/-- C4: a command whose discriminator is not in the closed command set is
fatal: `handle_cmds` raises NotImplementedError, which neither driver
converts to a failed response — the background loop dies and the modal
operator faults, in both cases with no response emitted for the command
and no further command processed. -/
theorem claim_C4 (m : Msg) (s : Scene) (cv : Val) (rest : List Msg) (rs : List Resp) (cb ta : Bool)
    (hc : lookupKey "cmd" m = some cv)
    (hv : ∀ c, cv = Val.str c → c ∉ cmdSet) :
    handle_cmds m s = (s, Except.error PyErr.notImplemented) ∧
    bgRun s (m :: rest) = (s, [], BgExit.fault PyErr.notImplemented) ∧
    modalStep { scene := s, cmd_queue := m :: rest, res_queue := rs, connBound := cb,
                timerActive := ta } Event.timer
      = ({ scene := s, cmd_queue := rest, res_queue := rs, connBound := cb,
           timerActive := ta }, ModalOut.fault PyErr.notImplemented) := by
  have hd : handle_cmds m s = (s, Except.error PyErr.notImplemented) := by
    cases cv with
    | str c =>
      have hns := hv c rfl
      simp only [cmdSet, List.mem_cons, List.mem_singleton, not_or] at hns
      obtain ⟨h1, h2, h3, h4, h5, h6, h7, h8, h9, h10, h11, h12, h13⟩ := hns
      simp [handle_cmds, getKey, hc, h1, h2, h3, h4, h5, h6, h7, h8, h9, h10, h11, h12, h13]
    | num q => simp [handle_cmds, getKey, hc]
    | arr l => simp [handle_cmds, getKey, hc]
    | nd sh fl => simp [handle_cmds, getKey, hc]
    | none => simp [handle_cmds, getKey, hc]
  refine ⟨hd, ?_, ?_⟩
  · simp [bgRun, hd]
  · simp [modalStep, hd]

theorem claim_C4_witness :
    bgRun initScene (bogusMsg :: [clearMsg])
      = (initScene, [], BgExit.fault PyErr.notImplemented) :=
  (claim_C4 bogusMsg initScene (Val.str "warp") [clearMsg] [] true true rfl
    (by intro c hcv; injection hcv with h2; subst h2; decide)).2.1

/-- C2: when processing a command fails with a missing-field KeyError,
both drivers emit exactly the response `{result: failed}`, keep running,
and process the commands that follow normally (a subsequent command that
succeeds still gets its own response). -/
theorem claim_C2 (s s1 : Scene) (m1 : Msg) (k : String) (ms : List Msg) (rs : List Resp)
    (cb ta : Bool)
    (h : handle_cmds m1 s = (s1, Except.error (PyErr.keyError k))) :
    bgRun s (m1 :: ms)
      = ((bgRun s1 ms).1, failedResp :: (bgRun s1 ms).2.1, (bgRun s1 ms).2.2) ∧
    modalStep { scene := s, cmd_queue := m1 :: ms, res_queue := rs, connBound := cb,
                timerActive := ta } Event.timer
      = ({ scene := s1, cmd_queue := ms, res_queue := rs ++ [failedResp], connBound := cb,
           timerActive := ta }, ModalOut.passThrough) ∧
    (∀ m2 s2 r2 ms2, handle_cmds m2 s1 = (s2, Except.ok r2) →
      bgRun s (m1 :: m2 :: ms2)
        = ((bgRun s2 ms2).1, failedResp :: r2 :: (bgRun s2 ms2).2.1, (bgRun s2 ms2).2.2)) := by
  refine ⟨?_, ?_, ?_⟩
  · simp [bgRun, h]
  · simp [modalStep, h]
  · intro m2 s2 r2 ms2 h2
    simp [bgRun, h, h2]

theorem claim_C2_witness :
    modalStep { scene := initScene, cmd_queue := [renderNoQualityMsg, clearMsg], res_queue := [],
                connBound := true, timerActive := true } Event.timer
      = ({ scene := initScene, cmd_queue := [clearMsg], res_queue := [] ++ [failedResp],
           connBound := true, timerActive := true }, ModalOut.passThrough) :=
  (claim_C2 initScene initScene renderNoQualityMsg "quality" [clearMsg] [] true true rfl).2.1

/-! ## Small reduction lemmas for literal sequences -/

lemma take3_cons {α : Type} (x y z : α) (r : List α) : List.take 3 (x :: y :: z :: r) = [x, y, z] := rfl

lemma drop3_cons {α : Type} (x y z : α) (r : List α) : List.drop 3 (x :: y :: z :: r) = r := rfl

lemma take4_cons {α : Type} (a b c d : α) (r : List α) : List.take 4 (a :: b :: c :: d :: r) = [a, b, c, d] := rfl

lemma vecIdx0 (a : ℚ) (l : List ℚ) : vecIdx (a :: l) 0 = Except.ok a := rfl

lemma vecIdx1 (a b : ℚ) (l : List ℚ) : vecIdx (a :: b :: l) 1 = Except.ok b := rfl

lemma vecIdx2 (a b c : ℚ) (l : List ℚ) : vecIdx (a :: b :: c :: l) 2 = Except.ok c := rfl

lemma vecIdx3 (a b c d : ℚ) (l : List ℚ) : vecIdx (a :: b :: c :: d :: l) 3 = Except.ok d := rfl

lemma vecIdx4 (a b c d e : ℚ) (l : List ℚ) : vecIdx (a :: b :: c :: d :: e :: l) 4 = Except.ok e := rfl

lemma item0_arr (v : Val) (l : List Val) : (Val.arr (v :: l)).item 0 = Except.ok v := rfl

lemma item1_arr (u v : Val) (l : List Val) : (Val.arr (u :: v :: l)).item 1 = Except.ok v := rfl

lemma item2_arr (u v w : Val) (l : List Val) : (Val.arr (u :: v :: w :: l)).item 2 = Except.ok w := rfl

/-! ## Claim C10: add_keyframe -/

/-- The scene after `add_keyframe` actually keys the camera: transform
set from the 7-vector and both data paths keyed at the frame. -/
def camKeyedScene (s : Scene) (x y z qw qx qy qz f : ℚ) : Scene :=
  { s with camera := { s.camera with
      location := [x, y, z]
      rotation_mode := "QUATERNION"
      rotation_quaternion := [qw, qx, qy, qz]
      keyed := s.camera.keyed ++ [("location", f), ("rotation_quaternion", f)] } }

/-- C10: every `add_keyframe` command carrying uuid, attribute, a
7-number value and a frame answers `{result: added}` regardless of the
uuid/attribute strings; the camera is set and keyed only when the uuid
is 'camera' and the attribute is 'pose' case-insensitively — any other
combination leaves the scene untouched while still reporting 'added'. -/
theorem claim_C10 (s : Scene) (m : Msg) (u a : String) (x y z qw qx qy qz f : ℚ)
    (hc : lookupKey "cmd" m = some (Val.str "add_keyframe"))
    (hu : lookupKey "uuid" m = some (Val.str u))
    (ha : lookupKey "attribute" m = some (Val.str a))
    (hv : lookupKey "value" m = some (Val.arr [Val.num x, Val.num y, Val.num z,
        Val.num qw, Val.num qx, Val.num qy, Val.num qz]))
    (hf : lookupKey "frame" m = some (Val.num f)) :
    (handle_cmds m s).2 = Except.ok addedResp ∧
    (pyLower u = "camera" → pyLower a = "pose" →
      handle_cmds m s = (camKeyedScene s x y z qw qx qy qz f, Except.ok addedResp)) ∧
    (pyLower u = "camera" → pyLower a ≠ "pose" →
      handle_cmds m s = (s, Except.ok addedResp)) ∧
    (pyLower u ≠ "camera" → handle_cmds m s = (s, Except.ok addedResp)) := by
  rw [dispatch_add_keyframe m s hc]
  by_cases hcam : pyLower u = "camera"
  · by_cases hpose : pyLower a = "pose"
    · have hmain : cmdAddKeyframe m s
          = (camKeyedScene s x y z qw qx qy qz f, Except.ok addedResp) := by
        simp [cmdAddKeyframe, getKey, hu, ha, hv, hf, Val.lower, hcam, hpose,
          Val.asVec, numList, take3_cons, drop3_cons, take4_cons, fitVec, Val.asNum,
          Scene.updObj, camKeyedScene]
      exact ⟨by rw [hmain], fun _ _ => hmain, fun _ hna => absurd hpose hna,
        fun hnu => absurd hcam hnu⟩
    · have hmain : cmdAddKeyframe m s = (s, Except.ok addedResp) := by
        simp [cmdAddKeyframe, getKey, hu, ha, Val.lower, hcam, hpose]
      exact ⟨by rw [hmain], fun _ hpa => absurd hpa hpose, fun _ _ => hmain,
        fun hnu => absurd hcam hnu⟩
  · have hmain : cmdAddKeyframe m s = (s, Except.ok addedResp) := by
      simp [cmdAddKeyframe, getKey, hu, Val.lower, hcam]
    exact ⟨by rw [hmain], fun hcu _ => absurd hcu hcam, fun hcu _ => absurd hcu hcam,
      fun _ => hmain⟩

def kfCamMsg : Msg :=
  [("cmd", Val.str "add_keyframe"), ("uuid", Val.str "Camera"), ("attribute", Val.str "POSE"),
   ("value", Val.arr [Val.num 0, Val.num 0, Val.num 0, Val.num 1, Val.num 0, Val.num 0, Val.num 0]),
   ("frame", Val.num 3)]

theorem claim_C10_witness :
    (handle_cmds kfCamMsg initScene).2 = Except.ok addedResp ∧
    handle_cmds kfCamMsg initScene
      = (camKeyedScene initScene 0 0 0 1 0 0 0 3, Except.ok addedResp) :=
  have h := claim_C10 initScene kfCamMsg "Camera" "POSE" 0 0 0 1 0 0 0 3 rfl rfl rfl rfl rfl
  ⟨h.1, h.2.1 rfl rfl⟩

/-! ## Claim C5: the camera command -/

/-- The scene after the pose half of the `camera` command. -/
def camPoseScene (s : Scene) (x y z qw qx qy qz : ℚ) : Scene :=
  { s with camera := { s.camera with
      location := [x, y, z]
      rotation_mode := "QUATERNION"
      rotation_quaternion := [qw, qx, qy, qz] } }

/-- The scene after the intrinsic half of the `camera` command: truncated
integer resolution, lens shifts, field of view, and the fixed clip
planes 0.1 and 1000.0. -/
def camIntrScene (s : Scene) (w h sx sy fov : ℚ) : Scene :=
  { s with
      resolution_x := pyInt w
      resolution_y := pyInt h
      camera_data := { s.camera_data with
        shift_x := sx, shift_y := sy, angle := fov, clip_start := 1/10, clip_end := 1000 } }

/-- A `camera` command whose pose field carries the 7 values directly
(the shape the claim describes). -/
def camFlatPoseMsg : Msg :=
  [("cmd", Val.str "camera"),
   ("pose", Val.arr [Val.num 1, Val.num 2, Val.num 3, Val.num 1, Val.num 0, Val.num 0, Val.num 0])]

/-- C5 counterexample: on a `camera` command whose pose field is the
7-vector itself, line 102's `msg['pose'][0]` takes the first scalar, so
slicing the resulting 0-d array raises IndexError: no field of the
camera is set and no `{result: success}` response is produced. -/
theorem claim_C5_counterexample :
    handle_cmds camFlatPoseMsg initScene = (initScene, Except.error PyErr.indexError) := rfl

/-- C5 amended: the pose payload's FIRST ELEMENT is the 7-vector
(xyz + wxyz quaternion): camera location comes from its first three
components and the quaternion from the last four; an intrinsic field
(width, height, shift_x, shift_y, fov) sets resolution, shifts and fov,
with clip planes fixed at exactly 0.1 and 1000.0; the response is
`{result: success}`. -/
theorem claim_C5 (s : Scene) (m : Msg) (x y z qw qx qy qz : ℚ) (rest : List Val)
    (hc : lookupKey "cmd" m = some (Val.str "camera"))
    (hp : lookupKey "pose" m = some (Val.arr (Val.arr [Val.num x, Val.num y, Val.num z,
        Val.num qw, Val.num qx, Val.num qy, Val.num qz] :: rest))) :
    (lookupKey "intrinsic" m = Option.none →
      handle_cmds m s = (camPoseScene s x y z qw qx qy qz, Except.ok successResp)) ∧
    (∀ w h sx sy fov : ℚ,
      lookupKey "intrinsic" m
          = some (Val.arr [Val.num w, Val.num h, Val.num sx, Val.num sy, Val.num fov]) →
      handle_cmds m s
        = (camIntrScene (camPoseScene s x y z qw qx qy qz) w h sx sy fov,
           Except.ok successResp)) := by
  rw [dispatch_camera m s hc]
  constructor
  · intro hi
    simp [cmdCamera, hp, item0_arr, Val.asVec, numList, take3_cons, drop3_cons, take4_cons,
      fitVec, camIntr, hi, Scene.updObj, camPoseScene]
  · intro w h sx sy fov hi
    simp [cmdCamera, hp, item0_arr, Val.asVec, numList, take3_cons, drop3_cons, take4_cons,
      fitVec, camIntr, hi, getKey, vecIdx0, vecIdx1, vecIdx2, vecIdx3, vecIdx4,
      Scene.updObj, camPoseScene, camIntrScene]

def camNestedPoseMsg : Msg :=
  [("cmd", Val.str "camera"),
   ("pose", Val.arr [Val.arr [Val.num 1, Val.num 2, Val.num 3,
      Val.num 1, Val.num 0, Val.num 0, Val.num 0]]),
   ("intrinsic", Val.arr [Val.num 1920, Val.num 1080, Val.num 0, Val.num 0, Val.num 1])]

theorem claim_C5_witness :
    handle_cmds camNestedPoseMsg initScene
      = (camIntrScene (camPoseScene initScene 1 2 3 1 0 0 0) 1920 1080 0 0 1,
         Except.ok successResp) :=
  (claim_C5 initScene camNestedPoseMsg 1 2 3 1 0 0 0 [] rfl rfl).2 1920 1080 0 0 1 rfl

/-! ## Claim C7: entity_pose -/

def eulerPoseMsg : Msg :=
  [("cmd", Val.str "entity_pose"), ("uuid", Val.str "u1"),
   ("rotation_mode", Val.str "EULER"),
   ("rotation_value", Val.arr [Val.num 0, Val.num 0, Val.num 0]),
   ("location_value", Val.none)]

def xyzPoseMsg : Msg :=
  [("cmd", Val.str "entity_pose"), ("uuid", Val.str "u1"),
   ("rotation_mode", Val.str "XYZ"),
   ("rotation_value", Val.arr [Val.num 0, Val.num 0, Val.num 0]),
   ("location_value", Val.none)]

/-- C7 bug evidence: `entity_pose` on an existing object with the spec's
EULER rotation mode never sets an euler rotation and never answers
success.  The literal mode string 'EULER' is rejected by Blender's
rotation_mode enum (TypeError before any mutation), and an actual euler
mode such as 'XYZ' reaches line 159, whose garbled attribute chain
`target_object.rotation[q].rotation_euler[q]` raises AttributeError
after the rotation mode has already been switched. -/
theorem claim_C7_bug :
    handle_cmds eulerPoseMsg sceneWithAsset
      = (sceneWithAsset, Except.error PyErr.typeError) ∧
    handle_cmds xyzPoseMsg sceneWithAsset
      = ({ sceneWithAsset with
            assets := [("u1", { newObj "u1" with rotation_mode := "XYZ" })] },
         Except.error PyErr.attributeError) :=
  ⟨rfl, rfl⟩

/-! ## Claim C8: envmap -/

lemma alphaPx_append : ∀ (k : Nat) (l1 l2 : List ℚ), l1.length = 3 * k →
    alphaPx (l1 ++ l2) = alphaPx l1 ++ alphaPx l2 := by
  intro k
  induction k with
  | zero =>
    intro l1 l2 h
    have : l1 = [] := List.length_eq_zero.mp (by omega)
    subst this
    simp [alphaPx]
  | succ k ih =>
    intro l1 l2 h
    match l1, h with
    | a :: b :: c :: rest, h =>
      have hr : rest.length = 3 * k := by
        simp only [List.length_cons] at h
        omega
      simp only [List.cons_append, alphaPx, List.append_eq, ih rest l2 hr]

lemma alphaPx_length : ∀ (k : Nat) (l : List ℚ), l.length = 3 * k →
    (alphaPx l).length = 4 * k := by
  intro k
  induction k with
  | zero =>
    intro l h
    have : l = [] := List.length_eq_zero.mp (by omega)
    subst this
    simp [alphaPx]
  | succ k ih =>
    intro l h
    match l, h with
    | a :: b :: c :: rest, h =>
      have hr : rest.length = 3 * k := by
        simp only [List.length_cons] at h
        omega
      simp only [alphaPx, List.length_cons, ih rest hr]
      omega

lemma rowsOf_alpha (W : Nat) : ∀ (H : Nat) (flat : List ℚ), flat.length = H * (W * 3) →
    rowsOf H (W * 4) (alphaPx flat) = (rowsOf H (W * 3) flat).map alphaPx := by
  intro H
  induction H with
  | zero => intro flat _; rfl
  | succ H ih =>
    intro flat hl
    have hl2 : flat.length = H * (W * 3) + W * 3 := by rw [hl, Nat.succ_mul]
    have hsplit : flat = flat.take (W * 3) ++ flat.drop (W * 3) :=
      (List.take_append_drop (W * 3) flat).symm
    have hlt : (flat.take (W * 3)).length = 3 * W := by
      simp only [List.length_take]
      omega
    have hld : (flat.drop (W * 3)).length = H * (W * 3) := by
      simp only [List.length_drop]
      omega
    have halen : (alphaPx (flat.take (W * 3))).length = W * 4 := by
      rw [alphaPx_length W _ hlt]
      ring
    calc rowsOf (H + 1) (W * 4) (alphaPx flat)
        = rowsOf (H + 1) (W * 4)
            (alphaPx (flat.take (W * 3)) ++ alphaPx (flat.drop (W * 3))) := by
          rw [← alphaPx_append W _ _ hlt, ← hsplit]
      _ = alphaPx (flat.take (W * 3))
            :: rowsOf H (W * 4) (alphaPx (flat.drop (W * 3))) := by
          rw [rowsOf]
          rw [List.take_left' halen, List.drop_left' halen]
      _ = (rowsOf (H + 1) (W * 3) flat).map alphaPx := by
          rw [ih _ hld, rowsOf]
          simp

lemma get2_cons (a b c : Nat) (l : List Nat) : (a :: b :: c :: l).get? 2 = some c := rfl

lemma getD0_cons (a : Nat) (l : List Nat) (d : Nat) : (a :: l).getD 0 d = a := rfl

lemma getD1_cons (a b : Nat) (l : List Nat) (d : Nat) : (a :: b :: l).getD 1 d = b := rfl

/-- C8: an `envmap` command with an HxWx3 float image uploads, as the
new world background, exactly the input image flipped vertically (rows
reversed) with an alpha channel of ones appended to every pixel, with
the mapping rotation taken from the message, answering
`{result: success}`; data whose shape is not 3-dimensional with exactly
3 channels fails the assert on line 214 — a fatal AssertionError (after
the world background has already been cleared), not a failed
response. -/
theorem claim_C8 (s : Scene) (m : Msg)
    (hc : lookupKey "cmd" m = some (Val.str "envmap")) :
    (∀ (H W : Nat) (flat : List ℚ) (rx ry rz : ℚ),
      lookupKey "data" m = some (Val.nd [H, W, 3] flat) →
      flat.length = H * (W * 3) →
      lookupKey "rotation" m = some (Val.arr [Val.num rx, Val.num ry, Val.num rz]) →
      handle_cmds m s
        = ({ s with world_env := (some
              { width := W, height := H,
                pixels := ((rowsOf H (W * 3) flat).reverse.map alphaPx).flatten,
                rotation := [rx, ry, rz] }) },
           Except.ok successResp)) ∧
    (∀ (shape : List Nat) (flat : List ℚ),
      lookupKey "data" m = some (Val.nd shape flat) →
      (shape.length ≠ 3 ∨ shape.get? 2 ≠ some 3) →
      handle_cmds m s
        = ({ s with world_env := Option.none }, Except.error PyErr.assertionError)) := by
  rw [dispatch_envmap m s hc]
  constructor
  · intro H W flat rx ry rz hd hl hr
    have hpix : ((rowsOf H (W * 4) (alphaPx flat)).reverse).flatten
        = ((rowsOf H (W * 3) flat).reverse.map alphaPx).flatten := by
      rw [rowsOf_alpha W H flat hl, List.map_reverse]
    simp [cmdEnvmap, getKey, hd, hr, rebuild_world_surface, get2_cons, getD0_cons,
      getD1_cons, Val.asVec, numList, fitVec, hpix]
  · intro shape flat hd hbad
    have hcond : ¬(shape.length = 3 ∧ shape.get? 2 = some 3) := by tauto
    simp only [List.get?_eq_getElem?] at hcond
    simp [cmdEnvmap, getKey, hd, rebuild_world_surface]
    intro h1 h2
    exact absurd ⟨h1, h2⟩ hcond

def envMapMsg : Msg :=
  [("cmd", Val.str "envmap"),
   ("data", Val.nd [2, 1, 3] [1, 2, 3, 4, 5, 6]),
   ("rotation", Val.arr [Val.num 0, Val.num 0, Val.num 0])]

theorem claim_C8_witness :
    handle_cmds envMapMsg initScene
      = ({ initScene with world_env := (some
            { width := 1, height := 2,
              pixels := ((rowsOf 2 (1 * 3) [1, 2, 3, 4, 5, 6]).reverse.map alphaPx).flatten,
              rotation := [0, 0, 0] }) },
         Except.ok successResp) :=
  (claim_C8 initScene envMapMsg rfl).1 2 1 [1, 2, 3, 4, 5, 6] 0 0 0 rfl rfl rfl

/-! ## Claim C6: add_animation_fcurve -/

lemma modifyLast_append {α : Type} (f : α → α) (l : List α) (x : α) :
    modifyLast f (l ++ [x]) = l ++ [f x] := by
  simp [modifyLast, List.dropLast_concat, List.getLast?_concat]

lemma modifyLast_comp {α : Type} (f g : α → α) (l : List α) :
    modifyLast g (modifyLast f l) = modifyLast (fun y => g (f y)) l := by
  induction l using List.reverseRecOn with
  | nil => rfl
  | append_singleton l x ih => simp [modifyLast_append]

lemma modifyLast_id {α : Type} (l : List α) : modifyLast (fun y => y) l = l := by
  induction l using List.reverseRecOn with
  | nil => rfl
  | append_singleton l x ih => simp [modifyLast_append]

lemma updateA_comp (n : String) (f g : Obj → Obj) (l : List (String × Obj)) :
    updateA n g (updateA n f l) = updateA n (fun o => g (f o)) l := by
  induction l with
  | nil => rfl
  | cons p r ih =>
    obtain ⟨k, o⟩ := p
    by_cases h : k = n <;> simp [updateA, h, ih]

lemma updateA_id (n : String) (l : List (String × Obj)) :
    updateA n (fun o => o) l = l := by
  induction l with
  | nil => rfl
  | cons p r ih =>
    obtain ⟨k, o⟩ := p
    by_cases h : k = n <;> simp [updateA, h, ih]

lemma lookupA_updateA (n : String) (f : Obj → Obj) (l : List (String × Obj)) :
    lookupA n (updateA n f l) = (lookupA n l).map f := by
  induction l with
  | nil => rfl
  | cons p r ih =>
    obtain ⟨k, o⟩ := p
    by_cases h : k = n <;> simp [updateA, lookupA, h, ih]

lemma updObj_comp (s : Scene) (r : ObjRef) (f g : Obj → Obj) :
    (s.updObj r f).updObj r g = s.updObj r (fun o => g (f o)) := by
  cases r <;> simp [Scene.updObj, updateA_comp]

lemma updObj_id (s : Scene) (r : ObjRef) : s.updObj r (fun o => o) = s := by
  cases r <;> simp [Scene.updObj, updateA_id]

lemma updActionF_comp (f g : PAction → PAction) (o : Obj) :
    updActionF g (updActionF f o) = updActionF (fun a => g (f a)) o := by
  cases h : o.action <;> simp [updActionF, h]

lemma updActionF_id (o : Obj) : updActionF (fun a => a) o = o := by
  cases h : o.action with
  | none => simp [updActionF, h]
  | some a =>
    simp only [updActionF, h]
    rw [← h]

lemma appendKF_updLastKF (s : Scene) (r : ObjRef) (kf : KeyframePoint)
    (g : KeyframePoint → KeyframePoint) :
    (s.appendKF r kf).updLastKF r g = s.appendKF r (g kf) := by
  have hfc : (fun fc : FCurve =>
        { fc with keyframe_points := modifyLast g (fc.keyframe_points ++ [kf]) })
      = (fun fc : FCurve => { fc with keyframe_points := fc.keyframe_points ++ [g kf] }) := by
    funext fc
    rw [modifyLast_append]
  simp only [Scene.appendKF, Scene.updLastKF, updObj_comp, updActionF_comp, modifyLast_comp]
  simp only [hfc]

/-- Iterated `keyframe_points.insert`: append each keyframe in turn to
the f-curve under construction. -/
def appendKFs (r : ObjRef) : Scene → List KeyframePoint → Scene
  | s, [] => s
  | s, k :: ks => appendKFs r (s.appendKF r k) ks

lemma appendKFs_eq (r : ObjRef) : ∀ (ks : List KeyframePoint) (s : Scene),
    appendKFs r s ks = s.updObj r (updActionF (fun a =>
      { a with fcurves := (modifyLast (fun fc =>
          { fc with keyframe_points := fc.keyframe_points ++ ks }) a.fcurves) })) := by
  intro ks
  induction ks with
  | nil =>
    intro s
    have h2 : (fun fc : FCurve =>
        { fc with keyframe_points := fc.keyframe_points ++ ([] : List KeyframePoint) })
        = fun fc => fc := by
      funext fc
      simp
    have h1 : (fun a : PAction => { a with fcurves := (modifyLast (fun fc =>
        { fc with keyframe_points := fc.keyframe_points ++ ([] : List KeyframePoint) })
          a.fcurves) }) = fun a => a := by
      funext a
      rw [h2, modifyLast_id]
    show s = _
    rw [h1]
    have h3 : updActionF (fun a : PAction => a) = fun o => o := by
      funext o
      exact updActionF_id o
    rw [h3, updObj_id]
  | cons k ks ih =>
    intro s
    show appendKFs r (s.appendKF r k) ks = _
    rw [ih]
    simp only [Scene.appendKF, updObj_comp, updActionF_comp, modifyLast_comp]
    have hfc : (fun fc : FCurve =>
        { fc with keyframe_points := (fc.keyframe_points ++ [k]) ++ ks })
        = (fun fc : FCurve => { fc with keyframe_points := fc.keyframe_points ++ k :: ks }) := by
      funext fc
      simp
    simp only [hfc]

/-- Encoding of a (frame, value) sample as pushed by the client. -/
def pairVal (p : ℚ × ℚ) : Val := Val.arr [Val.num p.1, Val.num p.2]

/-- Encoding of one bezier sample: (left handle, value point, right
handle), each a 2-tuple. -/
def bezVal (b : (ℚ × ℚ) × (ℚ × ℚ) × (ℚ × ℚ)) : Val :=
  Val.arr [pairVal b.1, pairVal b.2.1, pairVal b.2.2]

/-- The keyframe point a constant-mode sample produces. -/
def constKF (p : ℚ × ℚ) : KeyframePoint :=
  { frame := p.1, value := p.2, interpolation := "CONSTANT",
    handle_left := Option.none, handle_right := Option.none,
    handle_left_type := "FREE", handle_right_type := "FREE" }

/-- The keyframe point a linear-mode sample produces. -/
def linKF (p : ℚ × ℚ) : KeyframePoint :=
  { frame := p.1, value := p.2, interpolation := "LINEAR",
    handle_left := Option.none, handle_right := Option.none,
    handle_left_type := "FREE", handle_right_type := "FREE" }

/-- The keyframe point a bezier sample produces: frame/value from the
middle tuple, handles from the outer tuples, both handle types
ALIGNED. -/
def bezKF (b : (ℚ × ℚ) × (ℚ × ℚ) × (ℚ × ℚ)) : KeyframePoint :=
  { frame := b.2.1.1, value := b.2.1.2, interpolation := "BEZIER",
    handle_left := some b.1, handle_right := some b.2.2,
    handle_left_type := "ALIGNED", handle_right_type := "ALIGNED" }

lemma insertLoop_const (m : Msg) (r : ObjRef)
    (hm : lookupKey "mode" m = some (Val.str "constant")) :
    ∀ (ps : List (ℚ × ℚ)) (s : Scene),
    insertLoop m r (ps.map pairVal) s = (appendKFs r s (ps.map constKF), Except.ok addedResp) := by
  intro ps
  induction ps with
  | nil => intro s; simp [insertLoop, appendKFs]
  | cons p ps ih =>
    intro s
    simp only [List.map_cons, insertLoop, getKey, hm, pairVal, item0_arr, item1_arr,
      Val.asNum, appendKFs]
    exact ih (s.appendKF r (constKF p))

lemma insertLoop_linear (m : Msg) (r : ObjRef)
    (hm : lookupKey "mode" m = some (Val.str "linear")) :
    ∀ (ps : List (ℚ × ℚ)) (s : Scene),
    insertLoop m r (ps.map pairVal) s = (appendKFs r s (ps.map linKF), Except.ok addedResp) := by
  intro ps
  induction ps with
  | nil => intro s; simp [insertLoop, appendKFs]
  | cons p ps ih =>
    intro s
    simp only [List.map_cons, insertLoop, getKey, hm, pairVal, item0_arr, item1_arr,
      Val.asNum, appendKFs]
    exact ih (s.appendKF r (linKF p))

lemma insertLoop_bez (m : Msg) (r : ObjRef)
    (hm : lookupKey "mode" m = some (Val.str "bezier")) :
    ∀ (bs : List ((ℚ × ℚ) × (ℚ × ℚ) × (ℚ × ℚ))) (s : Scene),
    insertLoop m r (bs.map bezVal) s = (appendKFs r s (bs.map bezKF), Except.ok addedResp) := by
  intro bs
  induction bs with
  | nil => intro s; simp [insertLoop, appendKFs]
  | cons b bs ih =>
    intro s
    simp only [List.map_cons, insertLoop, getKey, hm, bezVal, pairVal, item0_arr, item1_arr,
      item2_arr, Val.asNum, Val.asVec, numList, fit2, appendKF_updLastKF, appendKFs]
    exact ih _

lemma getObj_updObj_asset (s : Scene) (u : String) (f : Obj → Obj) (o : Obj)
    (ho : lookupA u s.assets = some o) :
    (s.updObj (ObjRef.asset u) f).getObj (ObjRef.asset u) = f o := by
  simp [Scene.updObj, Scene.getObj, lookupA_updateA, ho]

lemma lookupA_updObj_asset (s : Scene) (u : String) (f : Obj → Obj) (o : Obj)
    (ho : lookupA u s.assets = some o) :
    lookupA u ((s.updObj (ObjRef.asset u) f).assets) = some (f o) := by
  simp [Scene.updObj, lookupA_updateA, ho]

/-- The f-curve created by `fcurves.new` plus the keyframes the sample
loop inserts into it. -/
def newFCurve (dp : String) (i : ℚ) (ks : List KeyframePoint) : FCurve :=
  { data_path := dp, index := i, auto_smoothing := "NONE", keyframe_points := ks }

/-- The scene produced by `add_animation_fcurve` on a fresh-animation
object: animation data created, a fresh action named after the object,
and a single new f-curve holding the produced keyframes. -/
def aafScene (s : Scene) (u : String) (dp : String) (i : ℚ) (ks : List KeyframePoint) : Scene :=
  s.updObj (ObjRef.asset u) (fun o =>
    { o with
        has_anim_data := true
        action := (some { name := o.name ++ "-Action", fcurves := [newFCurve dp i ks] }) })

/-- C6: `add_animation_fcurve` on an object with fresh animation state
creates one f-curve (auto_smoothing NONE) and, per sample: with
mode=bezier inserts a keyframe at the middle 2-tuple's frame/value with
interpolation BEZIER, left/right handles from the first/third tuples and
both handle types ALIGNED; with mode=constant or linear each sample is a
single (frame, value) pair inserted with interpolation CONSTANT or
LINEAR; the response is `{result: added}`. -/
theorem claim_C6 (s : Scene) (m : Msg) (u dp : String) (i : ℚ) (o : Obj)
    (hc : lookupKey "cmd" m = some (Val.str "add_animation_fcurve"))
    (hu : lookupKey "uuid" m = some (Val.str u))
    (hs1 : pyLower u ≠ "relative_camera") (hs2 : pyLower u ≠ "camera_base")
    (ho : lookupA u s.assets = some o)
    (hoa : o.has_anim_data = false) (hoact : o.action = Option.none)
    (hdp : lookupKey "data_path" m = some (Val.str dp))
    (hidx : lookupKey "index" m = some (Val.num i)) (hden : i.den = 1) :
    (∀ bs : List ((ℚ × ℚ) × (ℚ × ℚ) × (ℚ × ℚ)),
      lookupKey "mode" m = some (Val.str "bezier") →
      lookupKey "values" m = some (Val.arr (bs.map bezVal)) →
      handle_cmds m s = (aafScene s u dp i (bs.map bezKF), Except.ok addedResp)) ∧
    (∀ ps : List (ℚ × ℚ),
      lookupKey "mode" m = some (Val.str "constant") →
      lookupKey "values" m = some (Val.arr (ps.map pairVal)) →
      handle_cmds m s = (aafScene s u dp i (ps.map constKF), Except.ok addedResp)) ∧
    (∀ ps : List (ℚ × ℚ),
      lookupKey "mode" m = some (Val.str "linear") →
      lookupKey "values" m = some (Val.arr (ps.map pairVal)) →
      handle_cmds m s = (aafScene s u dp i (ps.map linKF), Except.ok addedResp)) := by
  rw [dispatch_aaf m s hc]
  have hobj : get_object s (Val.str u) = Except.ok (ObjRef.asset u) := by
    simp [get_object, hs1, hs2, ho]
  have hget : s.getObj (ObjRef.asset u) = o := by simp [Scene.getObj, ho]
  have hcmd : ∀ vl, lookupKey "values" m = some (Val.arr vl) →
      cmdAAF m s = insertLoop m (ObjRef.asset u) vl
        (((s.updObj (ObjRef.asset u) (fun o2 => { o2 with has_anim_data := true })).updObj
            (ObjRef.asset u) (fun o2 => { o2 with action :=
              (some { name := o2.name ++ "-Action", fcurves := [] }) })).updObj
          (ObjRef.asset u)
          (updActionF (fun a => { a with fcurves := a.fcurves ++ [newFCurve dp i []] }))) := by
    intro vl hv
    simp [cmdAAF, getKey, hu, hobj, hget, hoa, hoact, hdp, hidx, hv, hden, Val.elems,
      Scene.getObj, Scene.updObj, lookupA_updateA, ho, newFCurve]
  have hstate : ∀ ks : List KeyframePoint,
      appendKFs (ObjRef.asset u)
        (((s.updObj (ObjRef.asset u) (fun o2 => { o2 with has_anim_data := true })).updObj
            (ObjRef.asset u) (fun o2 => { o2 with action :=
              (some { name := o2.name ++ "-Action", fcurves := [] }) })).updObj
          (ObjRef.asset u)
          (updActionF (fun a => { a with fcurves := a.fcurves ++ [newFCurve dp i []] }))) ks
      = aafScene s u dp i ks := by
    intro ks
    rw [appendKFs_eq, updObj_comp, updObj_comp, updObj_comp]
    unfold aafScene
    congr 1
  refine ⟨?_, ?_, ?_⟩
  · intro bs hm hv
    rw [hcmd _ hv, insertLoop_bez m _ hm bs, hstate]
  · intro ps hm hv
    rw [hcmd _ hv, insertLoop_const m _ hm ps, hstate]
  · intro ps hm hv
    rw [hcmd _ hv, insertLoop_linear m _ hm ps, hstate]

def aafBezMsg : Msg :=
  [("cmd", Val.str "add_animation_fcurve"), ("uuid", Val.str "u1"),
   ("data_path", Val.str "location"), ("index", Val.num 0),
   ("mode", Val.str "bezier"),
   ("values", Val.arr [Val.arr [Val.arr [Val.num 0, Val.num 5],
      Val.arr [Val.num 1, Val.num 5], Val.arr [Val.num 2, Val.num 5]]])]

theorem claim_C6_witness :
    handle_cmds aafBezMsg sceneWithAsset
      = (aafScene sceneWithAsset "u1" "location" 0
          ([((0, 5), (1, 5), (2, 5))].map bezKF), Except.ok addedResp) :=
  (claim_C6 sceneWithAsset aafBezMsg "u1" "location" 0 (newObj "u1")
      rfl rfl (by decide) (by decide) rfl rfl rfl rfl rfl rfl).1
    [((0, 5), (1, 5), (2, 5))] rfl rfl

/-! ## Claim C1: dispatcher totality on well-formed commands -/

lemma item3_arr (t u v w : Val) (l : List Val) :
    (Val.arr (t :: u :: v :: w :: l)).item 3 = Except.ok w := rfl

lemma numList_map_num (l : List ℚ) : numList (l.map Val.num) = Except.ok l := by
  induction l with
  | nil => rfl
  | cons q l ih => simp [numList, ih]

/-- A response carrying a result drawn from the fixed enumeration. -/
def goodResult (resp : Resp) : Prop :=
  ∃ v, lookupKey "result" resp = some (Val.str v) ∧
    v ∈ ["created", "success", "got", "added", "rendered"]

/-- A uuid the dispatcher can resolve to an object (sentinel or
registered asset). -/
def resolvable (s : Scene) (u : String) : Prop :=
  pyLower u = "relative_camera" ∨ pyLower u = "camera_base" ∨
    ∃ o, lookupA u s.assets = some o

/-- The object a resolvable uuid denotes. -/
def objOf (s : Scene) (u : String) : Obj :=
  if pyLower u = "relative_camera" then s.camera
  else if pyLower u = "camera_base" then s.camera_base
  else (lookupA u s.assets).getD (newObj u)

/-- The addressed object exists (always true for the sentinels). -/
def objExists (s : Scene) : ObjRef → Prop
  | ObjRef.cam => True
  | ObjRef.base => True
  | ObjRef.asset n => (lookupA n s.assets).isSome = true

/-- `fcurves.new` does not collide with an existing f-curve. -/
def fcurveFree (o : Obj) (dp : String) (i : ℚ) : Prop :=
  match o.action with
  | Option.none => True
  | some act => act.fcurves.any (fun fc => fc.data_path == dp && fc.index == i) = false

/-! Per-command field contracts (the dispatcher's own shapes). -/

def wfEntity (m : Msg) : Prop :=
  lookupKey "cmd" m = some (Val.str "entity") ∧
  (∃ g, lookupKey "geometry_type" m = some (Val.str g)) ∧
  (∃ x y z qw qx qy qz : ℚ, lookupKey "pose" m = some (Val.arr
    [Val.num x, Val.num y, Val.num z, Val.num qw, Val.num qx, Val.num qy, Val.num qz]))

def wfClear (m : Msg) : Prop := lookupKey "cmd" m = some (Val.str "clear")

def wfCamera (m : Msg) : Prop :=
  lookupKey "cmd" m = some (Val.str "camera") ∧
  (lookupKey "pose" m = Option.none ∨
    ∃ (x y z qw qx qy qz : ℚ) (more : List ℚ) (rest : List Val),
      lookupKey "pose" m = some (Val.arr (Val.arr
        ((x :: y :: z :: qw :: qx :: qy :: qz :: more).map Val.num) :: rest))) ∧
  (lookupKey "intrinsic" m = Option.none ∨
    ∃ (w h sx sy fov : ℚ) (more : List ℚ),
      lookupKey "intrinsic" m = some (Val.arr
        ((w :: h :: sx :: sy :: fov :: more).map Val.num)))

def wfGetEntity (s : Scene) (m : Msg) : Prop :=
  lookupKey "cmd" m = some (Val.str "get_entity") ∧
  ∃ u o, lookupKey "uuid" m = some (Val.str u) ∧ lookupA u s.assets = some o

def wfLight (m : Msg) : Prop :=
  lookupKey "cmd" m = some (Val.str "light") ∧
  (∃ ty, lookupKey "type" m = some (Val.str ty) ∧ ty ∈ lightTypes ∧
    ((ty = "SUN" ∧ ∃ q : ℚ, lookupKey "angle" m = some (Val.num q)) ∨
     ((ty = "POINT" ∨ ty = "SPOT") ∧ ∃ q : ℚ, lookupKey "radius" m = some (Val.num q)) ∨
     (ty = "AREA" ∧ ∃ q : ℚ, lookupKey "size" m = some (Val.num q)))) ∧
  (∃ e : ℚ, lookupKey "energy" m = some (Val.num e)) ∧
  (∃ px py pz : ℚ, lookupKey "pos" m = some (Val.arr [Val.num px, Val.num py, Val.num pz])) ∧
  (∃ ra rb rc rd : ℚ, lookupKey "rot" m
      = some (Val.arr [Val.num ra, Val.num rb, Val.num rc, Val.num rd]))

def wfEntityPose (s : Scene) (m : Msg) : Prop :=
  lookupKey "cmd" m = some (Val.str "entity_pose") ∧
  (∃ u, lookupKey "uuid" m = some (Val.str u) ∧ resolvable s u) ∧
  (lookupKey "rotation_mode" m = some Val.none ∨
    ∃ (a b c d : ℚ) (r : List Val),
      (lookupKey "rotation_mode" m = some (Val.str "QUATERNION") ∨
       lookupKey "rotation_mode" m = some (Val.str "AXIS_ANGLE")) ∧
      lookupKey "rotation_value" m
        = some (Val.arr (Val.num a :: Val.num b :: Val.num c :: Val.num d :: r))) ∧
  (lookupKey "location_value" m = some Val.none ∨
    ∃ (a b c : ℚ) (r : List Val),
      lookupKey "location_value" m
        = some (Val.arr (Val.num a :: Val.num b :: Val.num c :: r)))

def wfAddKeyframe (m : Msg) : Prop :=
  lookupKey "cmd" m = some (Val.str "add_keyframe") ∧
  (∃ u, lookupKey "uuid" m = some (Val.str u)) ∧
  (∃ a, lookupKey "attribute" m = some (Val.str a)) ∧
  (∃ x y z qw qx qy qz : ℚ, lookupKey "value" m = some (Val.arr
    [Val.num x, Val.num y, Val.num z, Val.num qw, Val.num qx, Val.num qy, Val.num qz])) ∧
  (∃ f : ℚ, lookupKey "frame" m = some (Val.num f))

def wfAAF (s : Scene) (m : Msg) : Prop :=
  lookupKey "cmd" m = some (Val.str "add_animation_fcurve") ∧
  ∃ (u dp : String) (i : ℚ),
    lookupKey "uuid" m = some (Val.str u) ∧ resolvable s u ∧
    lookupKey "data_path" m = some (Val.str dp) ∧
    lookupKey "index" m = some (Val.num i) ∧ i.den = 1 ∧
    fcurveFree (objOf s u) dp i ∧
    ((∃ ps : List (ℚ × ℚ), lookupKey "mode" m = some (Val.str "constant") ∧
        lookupKey "values" m = some (Val.arr (ps.map pairVal))) ∨
     (∃ ps : List (ℚ × ℚ), lookupKey "mode" m = some (Val.str "linear") ∧
        lookupKey "values" m = some (Val.arr (ps.map pairVal))) ∨
     (∃ bs : List ((ℚ × ℚ) × (ℚ × ℚ) × (ℚ × ℚ)),
        lookupKey "mode" m = some (Val.str "bezier") ∧
        lookupKey "values" m = some (Val.arr (bs.map bezVal))))

def wfEnvmap (m : Msg) : Prop :=
  lookupKey "cmd" m = some (Val.str "envmap") ∧
  (∃ (H W : Nat) (flat : List ℚ),
    lookupKey "data" m = some (Val.nd [H, W, 3] flat) ∧ flat.length = H * (W * 3)) ∧
  (∃ rx ry rz : ℚ, lookupKey "rotation" m
      = some (Val.arr [Val.num rx, Val.num ry, Val.num rz]))

def wfRender (m : Msg) : Prop :=
  lookupKey "cmd" m = some (Val.str "render") ∧
  (∃ q : ℚ, lookupKey "quality" m = some (Val.num q) ∧ q.den = 1) ∧
  (∃ p, lookupKey "path" m = some (Val.str p))

def wfEval (m : Msg) : Prop :=
  lookupKey "cmd" m = some (Val.str "eval") ∧
  ∃ sc, lookupKey "script" m = some (Val.str sc)

/-- A well-formed command the dispatcher can complete: discriminator in
the closed set and the fields the dispatcher requires, correctly
shaped.  `detach` is excluded (it produces no response by design), and
so is `save`: its implementation passes the path positionally to the
Blender operator (see `cmdSave`), so no save command can succeed. -/
def wellFormedCmd (s : Scene) (m : Msg) : Prop :=
  wfEntity m ∨ wfClear m ∨ wfCamera m ∨ wfGetEntity s m ∨ wfLight m ∨
  wfEntityPose s m ∨ wfAddKeyframe m ∨ wfAAF s m ∨ wfEnvmap m ∨
  wfRender m ∨ wfEval m

lemma goodResult_success : goodResult successResp := ⟨"success", rfl, by decide⟩

lemma goodResult_added : goodResult addedResp := ⟨"added", rfl, by decide⟩

lemma goodResult_rendered : goodResult [("result", Val.str "rendered")] := ⟨"rendered", rfl, by decide⟩

lemma goodResult_created (v : Val) : goodResult [("result", Val.str "created"), ("uuid", v)] :=
  ⟨"created", rfl, by decide⟩

lemma goodResult_got (u : String) (g : Val) :
    goodResult (setKey "result" (Val.str "got") [("uuid", Val.str u), ("geometry_type", g)]) :=
  ⟨"got", rfl, by decide⟩

lemma ok_clear (m : Msg) (s : Scene) (h : wfClear m) :
    ∃ resp, (handle_cmds m s).2 = Except.ok resp ∧ goodResult resp := by
  rw [dispatch_clear m s h]
  exact ⟨successResp, rfl, goodResult_success⟩

lemma ok_render (m : Msg) (s : Scene) (h : wfRender m) :
    ∃ resp, (handle_cmds m s).2 = Except.ok resp ∧ goodResult resp := by
  obtain ⟨hc, ⟨q, hq, hden⟩, ⟨p, hp⟩⟩ := h
  rw [dispatch_render m s hc]
  refine ⟨_, ?_, goodResult_rendered⟩
  simp [cmdRender, getKey, hq, hp, hden]

lemma ok_eval (m : Msg) (s : Scene) (h : wfEval m) :
    ∃ resp, (handle_cmds m s).2 = Except.ok resp ∧ goodResult resp := by
  obtain ⟨hc, ⟨sc, hs⟩⟩ := h
  rw [dispatch_eval m s hc]
  refine ⟨successResp, ?_, goodResult_success⟩
  simp [cmdEval, getKey, hs]

lemma ok_envmap (m : Msg) (s : Scene) (h : wfEnvmap m) :
    ∃ resp, (handle_cmds m s).2 = Except.ok resp ∧ goodResult resp := by
  obtain ⟨hc, ⟨H, W, flat, hd, hl⟩, ⟨rx, ry, rz, hr⟩⟩ := h
  rw [dispatch_envmap m s hc]
  refine ⟨successResp, ?_, goodResult_success⟩
  simp [cmdEnvmap, getKey, hd, hr, rebuild_world_surface, get2_cons, Val.asVec,
    numList, fitVec]

lemma ok_get_entity (m : Msg) (s : Scene) (h : wfGetEntity s m) :
    ∃ resp, (handle_cmds m s).2 = Except.ok resp ∧ goodResult resp := by
  obtain ⟨hc, u, o, hu, ho⟩ := h
  rw [dispatch_get_entity m s hc]
  refine ⟨setKey "result" (Val.str "got") [("uuid", Val.str u), ("geometry_type", geomVal o)],
    ?_, goodResult_got u (geomVal o)⟩
  simp [cmdGetEntity, getKey, hu, get_entity, ho]

lemma ok_entity (m : Msg) (s : Scene) (h : wfEntity m) :
    ∃ resp, (handle_cmds m s).2 = Except.ok resp ∧ goodResult resp := by
  obtain ⟨hc, ⟨g, hg⟩, ⟨x, y, z, qw, qx, qy, qz, hp⟩⟩ := h
  rw [dispatch_entity m s hc]
  refine ⟨[("result", Val.str "created"), ("uuid", Val.str ("uuid-" ++ toString s.next_uuid))],
    ?_, goodResult_created _⟩
  simp [cmdEntity, getKey, hg, hp, create_entity, Val.elems, numList, fitVec,
    take3_cons, drop3_cons]

lemma ok_camera (m : Msg) (s : Scene) (h : wfCamera m) :
    ∃ resp, (handle_cmds m s).2 = Except.ok resp ∧ goodResult resp := by
  obtain ⟨hc, hpose, hintr⟩ := h
  rw [dispatch_camera m s hc]
  refine ⟨successResp, ?_, goodResult_success⟩
  have hi2 : ∀ s3 : Scene, (camIntr m s3).2 = Except.ok successResp := by
    intro s3
    rcases hintr with hi | ⟨w, h2, sx, sy, fov, more2, hi⟩
    · simp [camIntr, hi]
    · simp [camIntr, hi, Val.asVec, numList, numList_map_num, vecIdx0, vecIdx1, vecIdx2,
        vecIdx3, vecIdx4]
  rcases hpose with hp | ⟨x, y, z, qw, qx, qy, qz, more, rest, hp⟩
  · simp [cmdCamera, hp, hi2]
  · simp [cmdCamera, hp, item0_arr, Val.asVec, numList, numList_map_num, take3_cons,
      drop3_cons, take4_cons, fitVec, hi2]

lemma ok_add_keyframe (m : Msg) (s : Scene) (h : wfAddKeyframe m) :
    ∃ resp, (handle_cmds m s).2 = Except.ok resp ∧ goodResult resp := by
  obtain ⟨hc, ⟨u, hu⟩, ⟨a, ha⟩, ⟨x, y, z, qw, qx, qy, qz, hv⟩, ⟨f, hf⟩⟩ := h
  rw [dispatch_add_keyframe m s hc]
  refine ⟨addedResp, ?_, goodResult_added⟩
  by_cases hcam : pyLower u = "camera"
  · by_cases hpose : pyLower a = "pose"
    · simp [cmdAddKeyframe, getKey, hu, ha, hv, hf, Val.lower, hcam, hpose, Val.asVec,
        numList, take3_cons, drop3_cons, take4_cons, fitVec, Val.asNum]
    · simp [cmdAddKeyframe, getKey, hu, ha, Val.lower, hcam, hpose]
  · simp [cmdAddKeyframe, getKey, hu, Val.lower, hcam]

lemma ok_light (m : Msg) (s : Scene) (h : wfLight m) :
    ∃ resp, (handle_cmds m s).2 = Except.ok resp ∧ goodResult resp := by
  obtain ⟨hc, ⟨ty, hty, htyMem, hextra⟩, ⟨e, he⟩, ⟨px, py, pz, hpos⟩, ⟨ra, rb, rc, rd, hrot⟩⟩ := h
  rw [dispatch_light m s hc]
  have hlex : ∃ ex, lightExtra m ty = Except.ok ex := by
    rcases hextra with ⟨h1, q, hq⟩ | ⟨h1, q, hq⟩ | ⟨h1, q, hq⟩
    · subst h1
      exact ⟨(some q, Option.none, Option.none), by simp [lightExtra, getKey, hq, Val.asNum]⟩
    · rcases h1 with h1 | h1 <;> (subst h1; exact ⟨(Option.none, some q, Option.none),
        by simp [lightExtra, getKey, hq, Val.asNum]⟩)
    · subst h1
      exact ⟨(Option.none, Option.none, some q), by simp [lightExtra, getKey, hq, Val.asNum]⟩
  obtain ⟨ex, hex⟩ := hlex
  cases hu : lookupKey "uuid" m with
  | some v =>
    refine ⟨[("result", Val.str "created"), ("uuid", v)], ?_, goodResult_created v⟩
    simp [cmdLight, hu, getKey, hty, htyMem, he, hex, hpos, hrot, Val.asVec, numList,
      fitVec, Val.asNum]
  | none =>
    refine ⟨[("result", Val.str "created"),
      ("uuid", Val.str ("uuid-" ++ toString s.next_uuid))], ?_, goodResult_created _⟩
    simp [cmdLight, hu, getKey, hty, htyMem, he, hex, hpos, hrot, Val.asVec, numList,
      fitVec, Val.asNum]

lemma getObj_updObj (s : Scene) (r : ObjRef) (f : Obj → Obj) (hex : objExists s r) :
    (s.updObj r f).getObj r = f (s.getObj r) := by
  cases r with
  | cam => rfl
  | base => rfl
  | asset n =>
    rcases Option.isSome_iff_exists.mp hex with ⟨o, ho⟩
    simp [Scene.updObj, Scene.getObj, lookupA_updateA, ho]

lemma objExists_updObj (s : Scene) (r : ObjRef) (f : Obj → Obj) (hex : objExists s r) :
    objExists (s.updObj r f) r := by
  cases r with
  | cam => trivial
  | base => trivial
  | asset n =>
    rcases Option.isSome_iff_exists.mp hex with ⟨o, ho⟩
    simp [objExists, Scene.updObj, lookupA_updateA, ho]

lemma get_object_of_resolvable (s : Scene) (u : String) (h : resolvable s u) :
    ∃ r, get_object s (Val.str u) = Except.ok r ∧ objExists s r ∧ s.getObj r = objOf s u := by
  by_cases h1 : pyLower u = "relative_camera"
  · exact ⟨ObjRef.cam, by simp [get_object, h1], trivial, by simp [objOf, h1, Scene.getObj]⟩
  · by_cases h2 : pyLower u = "camera_base"
    · exact ⟨ObjRef.base, by simp [get_object, h1, h2], trivial,
        by simp [objOf, h1, h2, Scene.getObj]⟩
    · rcases h with h | h | ⟨o, ho⟩
      · exact absurd h h1
      · exact absurd h h2
      · exact ⟨ObjRef.asset u, by simp [get_object, h1, h2, ho],
          by simp [objExists, ho], by simp [objOf, h1, h2, Scene.getObj, ho]⟩

lemma entityPoseLoc_ok (m : Msg)
    (hloc : lookupKey "location_value" m = some Val.none ∨
      ∃ (a b c : ℚ) (r2 : List Val), lookupKey "location_value" m
        = some (Val.arr (Val.num a :: Val.num b :: Val.num c :: r2)))
    (r : ObjRef) (s : Scene) :
    (entityPoseLoc m r s).2 = Except.ok successResp := by
  rcases hloc with hl | ⟨a, b, c, r2, hl⟩
  · simp [entityPoseLoc, getKey, hl]
  · simp [entityPoseLoc, getKey, hl, item0_arr, item1_arr, item2_arr, Val.asNum]

lemma setCompLoop_ok (m : Msg) (a b c d : ℚ) (r2 : List Val)
    (hrv : lookupKey "rotation_value" m
      = some (Val.arr (Val.num a :: Val.num b :: Val.num c :: Val.num d :: r2)))
    (r : ObjRef) (fu : Nat → ℚ → Obj → Obj) (s : Scene) :
    ∃ s2, setCompLoop m r fu [0, 1, 2, 3] s = (s2, Except.ok ()) := by
  refine ⟨(((s.updObj r (fu 0 a)).updObj r (fu 1 b)).updObj r (fu 2 c)).updObj r (fu 3 d), ?_⟩
  simp [setCompLoop, getKey, hrv, item0_arr, item1_arr, item2_arr, item3_arr, Val.asNum]

lemma ok_entity_pose (m : Msg) (s : Scene) (h : wfEntityPose s m) :
    ∃ resp, (handle_cmds m s).2 = Except.ok resp ∧ goodResult resp := by
  obtain ⟨hc, ⟨u, hu, hres⟩, hrot, hloc⟩ := h
  rw [dispatch_entity_pose m s hc]
  obtain ⟨r, hr, _, _⟩ := get_object_of_resolvable s u hres
  refine ⟨successResp, ?_, goodResult_success⟩
  rcases hrot with hrm | ⟨a, b, c, d, r2, hrm, hrv⟩
  · simp [cmdEntityPose, getKey, hu, hr, hrm, entityPoseLoc_ok m hloc]
  · rcases hrm with hrm | hrm
    · obtain ⟨s2, hsc⟩ := setCompLoop_ok m a b c d r2 hrv r
        (fun q x o => { o with rotation_quaternion := o.rotation_quaternion.set q x })
        (s.updObj r (fun o => { o with rotation_mode := "QUATERNION" }))
      simp [cmdEntityPose, getKey, hu, hr, hrm, rotationModes, hsc,
        entityPoseLoc_ok m hloc]
    · obtain ⟨s2, hsc⟩ := setCompLoop_ok m a b c d r2 hrv r
        (fun q x o => { o with rotation_axis_angle := o.rotation_axis_angle.set q x })
        (s.updObj r (fun o => { o with rotation_mode := "AXIS_ANGLE" }))
      simp [cmdEntityPose, getKey, hu, hr, hrm, rotationModes, hsc,
        entityPoseLoc_ok m hloc]

lemma cmdAAF_red (m : Msg) (s : Scene) (u dp : String) (i : ℚ) (r : ObjRef) (vl : List Val)
    (hu : lookupKey "uuid" m = some (Val.str u))
    (hr : get_object s (Val.str u) = Except.ok r)
    (hex : objExists s r)
    (hdp : lookupKey "data_path" m = some (Val.str dp))
    (hidx : lookupKey "index" m = some (Val.num i))
    (hden : i.den = 1)
    (hfree : fcurveFree (s.getObj r) dp i)
    (hv : lookupKey "values" m = some (Val.arr vl)) :
    ∃ S, cmdAAF m s = insertLoop m r vl S := by
  cases hand : (s.getObj r).has_anim_data with
  | true =>
    cases hact : (s.getObj r).action with
    | some act =>
      have hfree2 : act.fcurves.any (fun fc => fc.data_path == dp && fc.index == i) = false := by
        have h3 := hfree
        simp only [fcurveFree, hact] at h3
        exact h3
      exact ⟨s.updObj r (updActionF (fun a => { a with fcurves := a.fcurves ++ [{ data_path := dp, index := i, auto_smoothing := "NONE", keyframe_points := [] }] })), by simp [cmdAAF, getKey, hu, hr, hand, hact, hdp, hidx,
        hden, hv, Val.elems, hfree2]⟩
    | none =>
      have h2 : ((s.updObj r (fun o2 => { o2 with action :=
          (some { name := o2.name ++ "-Action", fcurves := [] }) })).getObj r).action
          = some { name := (s.getObj r).name ++ "-Action", fcurves := [] } := by
        rw [getObj_updObj s r _ hex]
      exact ⟨(s.updObj r (fun o2 => { o2 with action := (some { name := o2.name ++ "-Action", fcurves := [] }) })).updObj r (updActionF (fun a => { a with fcurves := a.fcurves ++ [{ data_path := dp, index := i, auto_smoothing := "NONE", keyframe_points := [] }] })), by simp [cmdAAF, getKey, hu, hr, hand, hact,
        hdp, hidx, hden, hv, Val.elems, h2]⟩
  | false =>
    have hex1 : objExists (s.updObj r (fun o2 => { o2 with has_anim_data := true })) r :=
      objExists_updObj s r _ hex
    have h1 : ((s.updObj r (fun o2 => { o2 with has_anim_data := true })).getObj r).action
        = (s.getObj r).action := by
      rw [getObj_updObj s r _ hex]
    cases hact : (s.getObj r).action with
    | some act =>
      have hfree2 : act.fcurves.any (fun fc => fc.data_path == dp && fc.index == i) = false := by
        have h3 := hfree
        simp only [fcurveFree, hact] at h3
        exact h3
      exact ⟨(s.updObj r (fun o2 => { o2 with has_anim_data := true })).updObj r (updActionF (fun a => { a with fcurves := a.fcurves ++ [{ data_path := dp, index := i, auto_smoothing := "NONE", keyframe_points := [] }] })), by simp [cmdAAF, getKey, hu, hr, hand, h1,
        hact, hdp, hidx, hden, hv, Val.elems, hfree2]⟩
    | none =>
      have h2 : (((s.updObj r (fun o2 => { o2 with has_anim_data := true })).updObj r
          (fun o2 => { o2 with action :=
            (some { name := o2.name ++ "-Action", fcurves := [] }) })).getObj r).action
          = some { name := (s.getObj r).name ++ "-Action", fcurves := [] } := by
        rw [getObj_updObj _ r _ hex1, getObj_updObj s r _ hex]
      exact ⟨((s.updObj r (fun o2 => { o2 with has_anim_data := true })).updObj r (fun o2 => { o2 with action := (some { name := o2.name ++ "-Action", fcurves := [] }) })).updObj r (updActionF (fun a => { a with fcurves := a.fcurves ++ [{ data_path := dp, index := i, auto_smoothing := "NONE", keyframe_points := [] }] })), by simp [cmdAAF, getKey,
        hu, hr, hand, h1, hact, hdp, hidx, hden, hv, Val.elems, h2]⟩

lemma ok_aaf (m : Msg) (s : Scene) (h : wfAAF s m) :
    ∃ resp, (handle_cmds m s).2 = Except.ok resp ∧ goodResult resp := by
  obtain ⟨hc, u, dp, i, hu, hres, hdp, hidx, hden, hfree, hmode⟩ := h
  rw [dispatch_aaf m s hc]
  obtain ⟨r, hr, hex, hobj⟩ := get_object_of_resolvable s u hres
  have hfree2 : fcurveFree (s.getObj r) dp i := by rw [hobj]; exact hfree
  refine ⟨addedResp, ?_, goodResult_added⟩
  rcases hmode with ⟨ps, hm, hv⟩ | ⟨ps, hm, hv⟩ | ⟨bs, hm, hv⟩
  · obtain ⟨S, hS⟩ := cmdAAF_red m s u dp i r _ hu hr hex hdp hidx hden hfree2 hv
    rw [hS, insertLoop_const m r hm ps S]
  · obtain ⟨S, hS⟩ := cmdAAF_red m s u dp i r _ hu hr hex hdp hidx hden hfree2 hv
    rw [hS, insertLoop_linear m r hm ps S]
  · obtain ⟨S, hS⟩ := cmdAAF_red m s u dp i r _ hu hr hex hdp hidx hden hfree2 hv
    rw [hS, insertLoop_bez m r hm bs S]

/-- C1 counterexample: the `camera` discriminator is in the closed set
and the command carries a pose field with the 7 pose values, yet
processing raises IndexError (line 102 indexes `msg['pose'][0]`): the
background loop dies with zero responses instead of producing one. -/
theorem claim_C1_counterexample :
    bgRun initScene [camFlatPoseMsg] = (initScene, [], BgExit.fault PyErr.indexError) := rfl

/-- C1 amended: for every command whose discriminator is in the closed
set minus `detach` and minus `save` (whose positional operator call
faults on every path, see `cmdSave`) and whose fields satisfy the
dispatcher's own contracts (`wellFormedCmd`: in particular the camera
pose nested as its first element, entity_pose rotation_mode in
{QUATERNION, AXIS_ANGLE, null}, an integer render quality, and no
pre-existing f-curve collision), processing yields exactly one response
whose `result` is drawn from {created, success, got, added, rendered}:
the background loop forwards exactly that response, and so does one
modal step. -/
theorem claim_C1 (s : Scene) (m : Msg) (h : wellFormedCmd s m) :
    ∃ s2 resp, handle_cmds m s = (s2, Except.ok resp) ∧ goodResult resp ∧
      bgRun s [m] = (s2, [resp], BgExit.drained) ∧
      (∀ (q : List Msg) (rs : List Resp) (cb ta : Bool),
        modalStep { scene := s, cmd_queue := m :: q, res_queue := rs, connBound := cb,
                    timerActive := ta } Event.timer
          = ({ scene := s2, cmd_queue := q, res_queue := rs ++ [resp], connBound := cb,
               timerActive := ta }, ModalOut.passThrough)) := by
  have hok : ∃ resp, (handle_cmds m s).2 = Except.ok resp ∧ goodResult resp := by
    rcases h with h | h | h | h | h | h | h | h | h | h | h
    exacts [ok_entity m s h, ok_clear m s h, ok_camera m s h, ok_get_entity m s h,
      ok_light m s h, ok_entity_pose m s h, ok_add_keyframe m s h, ok_aaf m s h,
      ok_envmap m s h, ok_render m s h, ok_eval m s h]
  obtain ⟨resp, h2, hg⟩ := hok
  rcases hh : handle_cmds m s with ⟨s2, r2⟩
  rw [hh] at h2
  simp only at h2
  subst h2
  refine ⟨s2, resp, rfl, hg, ?_, ?_⟩
  · simp [bgRun, hh]
  · intro q rs cb ta
    simp [modalStep, hh]

theorem claim_C1_witness :
    ∃ s2 resp, handle_cmds clearMsg initScene = (s2, Except.ok resp) ∧ goodResult resp ∧
      bgRun initScene [clearMsg] = (s2, [resp], BgExit.drained) ∧
      (∀ (q : List Msg) (rs : List Resp) (cb ta : Bool),
        modalStep { scene := initScene, cmd_queue := clearMsg :: q, res_queue := rs,
                    connBound := cb, timerActive := ta } Event.timer
          = ({ scene := s2, cmd_queue := q, res_queue := rs ++ [resp], connBound := cb,
               timerActive := ta }, ModalOut.passThrough)) :=
  claim_C1 initScene clearMsg (Or.inr (Or.inl rfl))
